import Mathlib

/-!
Shallow embedding of the Story Engine of the Sentra-core repository
(`sentra_core/story/rules.py`, `engine.py`, `normalize.py`, `comm_extract.py`).

Conventions of the embedding:
* Python values that flow through the engine (fact values, trip date fields)
  are modelled by the inductive `PyVal`; Python truthiness is `pyTruthy`.
* Optional record fields are `Option`; a missing attribute is `none`.
* Timestamps (`now_datetime`, `creation`, `last_seen_at`, dates) are `Nat`
  ordinals; Python `datetime` values are always truthy, which is modelled by
  treating presence (`some`) as truthy for timestamp fields.
* `json.dumps` / `json.loads` of the Python standard library are modelled by
  `jsonDumps` / `json_loads`.  Recursion is driven by a fuel argument that is
  always large enough (`sizeOf` for dumping, twice the input length for
  parsing), keeping every definition structurally recursive and hence
  evaluable by `decide` / `rfl`.  Numbers are modelled as integers; floating
  point literals are out of scope of the engine (fact values are produced by
  the engine itself from strings, dicts and lists).
* Fallible operations (`frappe.get_doc` on a missing name raises) are
  modelled with `Option`: `none` is an uncaught exception.
-/

/-- Python truthiness of an optional string field (`None` and `""` are falsy). -/
def truthyS (s : Option String) : Bool :=
  match s with
  | some s => !(s == "")
  | none => false

/-- Python `s or d` for an optional/empty string, as used for
`story.stage or "Inquiry"` in the engine. -/
def pyOr (s : Option String) (d : String) : String :=
  match s with
  | some s => if s = "" then d else s
  | none => d

/-- Keep an optional string only when it is Python-truthy. -/
def asTruthy (s : Option String) : Option String :=
  match s with
  | some s => if s = "" then none else some s
  | none => none

/-- Dynamically typed Python values handled by the engine: `None`, booleans,
integers, strings, lists and (insertion-ordered) dicts. -/
inductive PyVal where
  | pynone : PyVal
  | pybool (b : Bool) : PyVal
  | pyint (n : Int) : PyVal
  | pystr (s : String) : PyVal
  | pylist (xs : List PyVal) : PyVal
  | pydict (kvs : List (String × PyVal)) : PyVal

/-- Python truthiness of a `PyVal`. -/
def pyTruthy (v : PyVal) : Bool :=
  match v with
  | PyVal.pynone => false
  | PyVal.pybool b => b
  | PyVal.pyint n => !(n == 0)
  | PyVal.pystr s => !(s == "")
  | PyVal.pylist xs => !xs.isEmpty
  | PyVal.pydict kvs => !kvs.isEmpty

/-- Join strings with `", "`, as the default `json.dumps` item separator. -/
def joinComma (l : List String) : String :=
  match l with
  | [] => ""
  | [x] => x
  | x :: rest => x ++ ", " ++ joinComma rest

/-- A single quote character, for Python `repr` of strings. -/
def squote : String := String.singleton (Char.ofNat 39)

/-- JSON string escaping of `json.dumps` (quote, backslash and control
characters; other characters pass through). -/
def jsonEscape (cs : List Char) : List Char :=
  match cs with
  | [] => []
  | c :: rest =>
    (if c = '"' then ['\\', '"']
     else if c = '\\' then ['\\', '\\']
     else if c = '\n' then ['\\', 'n']
     else if c = '\t' then ['\\', 't']
     else if c = '\r' then ['\\', 'r']
     else [c]) ++ jsonEscape rest

/-- Quote a string as a JSON string literal. -/
def jsonQuote (s : String) : String :=
  "\"" ++ String.mk (jsonEscape s.data) ++ "\""

mutual

/-- Model of Python `json.dumps(v)` with its default separators `", "` and
`": "`. -/
def jsonDumps : PyVal → String
  | PyVal.pynone => "null"
  | PyVal.pybool b => if b then "true" else "false"
  | PyVal.pyint n => toString n
  | PyVal.pystr s => jsonQuote s
  | PyVal.pylist xs => "[" ++ jsonDumpsItems xs ++ "]"
  | PyVal.pydict kvs => "\x7b" ++ jsonDumpsMembers kvs ++ "\x7d"

/-- Comma-joined dump of the elements of a JSON array. -/
def jsonDumpsItems : List PyVal → String
  | [] => ""
  | [v] => jsonDumps v
  | v :: rest => jsonDumps v ++ ", " ++ jsonDumpsItems rest

/-- Comma-joined dump of the members of a JSON object. -/
def jsonDumpsMembers : List (String × PyVal) → String
  | [] => ""
  | [kv] => jsonQuote kv.1 ++ ": " ++ jsonDumps kv.2
  | kv :: rest => jsonQuote kv.1 ++ ": " ++ jsonDumps kv.2 ++ ", " ++ jsonDumpsMembers rest

end

mutual

/-- Model of Python `repr`, used by `str()` on lists and dicts (strings are
single-quoted). -/
def pyRepr : PyVal → String
  | PyVal.pynone => "None"
  | PyVal.pybool b => if b then "True" else "False"
  | PyVal.pyint n => toString n
  | PyVal.pystr s => squote ++ s ++ squote
  | PyVal.pylist xs => "[" ++ pyReprItems xs ++ "]"
  | PyVal.pydict kvs => "\x7b" ++ pyReprMembers kvs ++ "\x7d"

/-- Comma-joined repr of list elements. -/
def pyReprItems : List PyVal → String
  | [] => ""
  | [v] => pyRepr v
  | v :: rest => pyRepr v ++ ", " ++ pyReprItems rest

/-- Comma-joined repr of dict members. -/
def pyReprMembers : List (String × PyVal) → String
  | [] => ""
  | [kv] => squote ++ kv.1 ++ squote ++ ": " ++ pyRepr kv.2
  | kv :: rest => squote ++ kv.1 ++ squote ++ ": " ++ pyRepr kv.2 ++ ", " ++ pyReprMembers rest

end

/-- Model of Python `str(v)`. -/
def pyStrOf (v : PyVal) : String :=
  match v with
  | PyVal.pynone => "None"
  | PyVal.pybool b => if b then "True" else "False"
  | PyVal.pyint n => toString n
  | PyVal.pystr s => s
  | PyVal.pylist xs => pyRepr (PyVal.pylist xs)
  | PyVal.pydict kvs => pyRepr (PyVal.pydict kvs)

/-- JSON whitespace characters. -/
def jsonWs (c : Char) : Bool := c = ' ' || c = '\t' || c = '\n' || c = '\r'

/-- Drop leading JSON whitespace. -/
def skipWs (cs : List Char) : List Char := cs.dropWhile jsonWs

/-- Parse the body of a JSON string literal (after the opening quote);
returns the decoded characters and the input after the closing quote. -/
def parseJStr : List Char → Option (List Char × List Char)
  | [] => none
  | c :: rest =>
    if c = '"' then some ([], rest)
    else if c = '\\' then
      match rest with
      | [] => none
      | e :: rest2 =>
        let dec : Option Char :=
          if e = '"' then some '"'
          else if e = '\\' then some '\\'
          else if e = '/' then some '/'
          else if e = 'n' then some '\n'
          else if e = 't' then some '\t'
          else if e = 'r' then some '\r'
          else none
        match dec with
        | some d => (parseJStr rest2).map (fun p => (d :: p.1, p.2))
        | none => none
    else (parseJStr rest).map (fun p => (c :: p.1, p.2))

/-- Numeric value of a run of decimal digits. -/
def natOfDigits (cs : List Char) : Nat :=
  cs.foldl (fun acc c => acc * 10 + (c.toNat - 48)) 0

mutual

/-- Fueled recursive-descent parser for a JSON value, modelling
`json.loads` (numbers restricted to integers). -/
def parseJ : Nat → List Char → Option (PyVal × List Char)
  | 0, _ => none
  | fuel + 1, cs =>
    match skipWs cs with
    | [] => none
    | '"' :: rest => (parseJStr rest).map (fun p => (PyVal.pystr (String.mk p.1), p.2))
    | '\x7b' :: rest =>
      (match skipWs rest with
       | '\x7d' :: rest2 => some (PyVal.pydict [], rest2)
       | _ => (parseJObj fuel rest).map (fun p => (PyVal.pydict p.1, p.2)))
    | '[' :: rest =>
      (match skipWs rest with
       | ']' :: rest2 => some (PyVal.pylist [], rest2)
       | _ => (parseJArr fuel rest).map (fun p => (PyVal.pylist p.1, p.2)))
    | 'n' :: 'u' :: 'l' :: 'l' :: rest => some (PyVal.pynone, rest)
    | 't' :: 'r' :: 'u' :: 'e' :: rest => some (PyVal.pybool true, rest)
    | 'f' :: 'a' :: 'l' :: 's' :: 'e' :: rest => some (PyVal.pybool false, rest)
    | '-' :: rest =>
      (let ds := rest.takeWhile Char.isDigit
       if ds.isEmpty then none
       else some (PyVal.pyint (-(natOfDigits ds : Int)), rest.dropWhile Char.isDigit))
    | c :: rest =>
      (if c.isDigit then
        let ds := (c :: rest).takeWhile Char.isDigit
        some (PyVal.pyint (natOfDigits ds : Int), (c :: rest).dropWhile Char.isDigit)
       else none)

/-- Parse the members of a JSON array (after `[`, at least one element). -/
def parseJArr : Nat → List Char → Option (List PyVal × List Char)
  | 0, _ => none
  | fuel + 1, cs =>
    match parseJ fuel cs with
    | none => none
    | some (v, rest) =>
      match skipWs rest with
      | ',' :: rest2 => (parseJArr fuel rest2).map (fun p => (v :: p.1, p.2))
      | ']' :: rest2 => some ([v], rest2)
      | _ => none

/-- Parse the members of a JSON object (after the opening brace, at least
one member). -/
def parseJObj : Nat → List Char → Option (List (String × PyVal) × List Char)
  | 0, _ => none
  | fuel + 1, cs =>
    match skipWs cs with
    | '"' :: rest =>
      (match parseJStr rest with
       | none => none
       | some (kcs, rest2) =>
         match skipWs rest2 with
         | ':' :: rest3 =>
           (match parseJ fuel rest3 with
            | none => none
            | some (v, rest4) =>
              match skipWs rest4 with
              | ',' :: rest5 => (parseJObj fuel rest5).map (fun p => ((String.mk kcs, v) :: p.1, p.2))
              | '\x7d' :: rest5 => some ([(String.mk kcs, v)], rest5)
              | _ => none)
         | _ => none)
    | _ => none

end

/-- Model of Python `json.loads`: parse a complete JSON document, `none` on
any parse error (which Python raises and the callers catch). -/
def json_loads (s : String) : Option PyVal :=
  match parseJ (2 * s.data.length + 4) s.data with
  | some (v, rest) => if skipWs rest = [] then some v else none
  | none => none

/-! ## `sentra_core/story/rules.py` -/

/-- The `STAGE_ORDER` dict of `rules.py`. -/
def STAGE_ORDER : List (String × Nat) :=
  [("Inquiry", 0), ("Discovery", 1), ("Proposal", 2), ("Negotiation", 3),
   ("Booking", 4), ("Fulfillment", 5), ("Post-trip", 6)]

/-- Python `m.get(k, d)` on a string-keyed association list of naturals. -/
def assocGetNat (m : List (String × Nat)) (k : String) (d : Nat) : Nat :=
  match m with
  | [] => d
  | kv :: rest => if kv.1 = k then kv.2 else assocGetNat rest k d

/-- `STAGE_ORDER.get(k, d)`. -/
def stageOrderGet (k : String) (d : Nat) : Nat := assocGetNat STAGE_ORDER k d

/-- The seven stage names, in rank order. -/
def stageNames : List String :=
  ["Inquiry", "Discovery", "Proposal", "Negotiation", "Booking", "Fulfillment", "Post-trip"]

/-- Rank of a raw `stage` field value, as the engine computes it:
`STAGE_ORDER.get(stage or "Inquiry", 0)`. -/
def stageRank (s : Option String) : Nat := stageOrderGet (pyOr s ("Inquiry")) 0

/-- The nested-dict intent structure produced by `normalize.intent_from_trip`
and consumed by `rules.trip_ready_for_proposal`: keys `destinations`,
`dates` (`start` / `end` / `flex`) and `pax`. -/
structure Intent where
  destinations : List String
  dates_start : PyVal
  dates_end : PyVal
  dates_flex : PyVal
  pax : Option Int

/-- `rules.trip_ready_for_proposal(intent)`. -/
def trip_ready_for_proposal (intent : Intent) : Bool :=
  let destinations := intent.destinations
  let has_destination := !destinations.isEmpty
  let start := intent.dates_start
  let stop := intent.dates_end
  let flex := intent.dates_flex
  let has_dates := (pyTruthy start && pyTruthy stop) || (pyTruthy flex && !(pyStrOf flex == "Exact dates"))
  let has_pax :=
    match intent.pax with
    | none => false
    | some n => if n = 0 then false else decide (0 < n)
  has_destination && has_dates && has_pax

/-- Python `facts.get(k)` on the engine's flattened-facts dict (insertion
ordered association list; keys are unique by construction). -/
def dictGet (m : List (String × PyVal)) (k : String) : Option PyVal :=
  match m with
  | [] => none
  | kv :: rest => if kv.1 = k then some kv.2 else dictGet rest k

/-- `rules.proposal_sent(facts)`.  (`(facts or ...).get("proposal") or ...`
yields an empty dict when the entry is absent or falsy; a truthy non-dict
entry would raise in Python and cannot be produced by the engine.) -/
def proposal_sent (facts : List (String × PyVal)) : Bool :=
  let proposal : List (String × PyVal) :=
    match dictGet facts ("proposal") with
    | some (PyVal.pydict d) => d
    | _ => []
  match dictGet proposal ("sent_at") with
  | some v => pyTruthy v
  | none => false

/-- `rules.choose_stage`.  `itinerary_statuses` is accepted (any element
type, mirroring the dynamically typed Python list) and never inspected. -/
def choose_stage {α : Type} (current_stage : Option String) (has_contact has_itinerary : Bool)
    (itinerary_statuses : List α) (trip_ready proposal_sent_flag : Bool) : String :=
  let target_stage :=
    if proposal_sent_flag then ("Negotiation")
    else if has_itinerary || trip_ready then ("Proposal")
    else if has_contact then ("Discovery")
    else ("Inquiry")
  let current_rank := stageOrderGet (pyOr current_stage ("Inquiry")) 0
  let target_rank := stageOrderGet target_stage 0
  if target_rank < current_rank then pyOr current_stage ("Inquiry") else target_stage


/-! ## Record shapes (the document-store schemas consumed and produced by the
engine, §3 and §6 of the spec) -/

/-- A `Fact` child row of a Story. -/
structure FactRow where
  key : String
  value : Option String
  precedence : Option String
  source_doc_type : Option String
  source_doc : Option String
  last_seen_at : Option Nat
  modified : Option Nat
  creation : Option Nat
  deriving DecidableEq

/-- An `Itinerary Snapshot` child row of a Story. -/
structure ItinSnapshotRow where
  itinerary : String
  status : Option String
  valid_from : Option Nat
  valid_to : Option Nat
  deriving DecidableEq

/-- The `Story` aggregate. -/
structure Story where
  contact : String
  stage : Option String
  story_version : Option Nat
  primary_trip : Option String
  last_built_at : Option Nat
  last_touch_from : Option String
  last_touch_reason : Option String
  facts : List FactRow
  itineraries : List ItinSnapshotRow
  deriving DecidableEq

/-- An immutable `Story Event` record. -/
structure StoryEvent where
  contact : String
  event_type : String
  source_doctype : Option String
  source_ref : Option String
  diff : String
  actor : String
  created_at : Nat
  deriving DecidableEq

/-- A `destination_city` child row of a Trip. -/
structure DestRow where
  destination : Option String
  deriving DecidableEq

/-- A `Trip` record (dates are `Nat` ordinals; `passenger_details` rows are
opaque identifiers, only their count is used). -/
structure Trip where
  name : String
  customer : Option String
  destination_city : List DestRow
  start_date : Option Nat
  end_date : Option Nat
  flexible_days : Option String
  pax : Option Int
  passenger_details : List String
  creation : Nat
  deriving DecidableEq

/-- An `Itinerary` record. -/
structure ItineraryDoc where
  name : String
  trip : Option String
  status : Option String
  valid_from : Option Nat
  valid_to : Option Nat
  creation : Nat
  deriving DecidableEq

/-- A `timeline_links` child row of a Communication. -/
structure TimelineLink where
  link_doctype : Option String
  link_name : Option String
  deriving DecidableEq

/-- A `Communication` record. -/
structure Comm where
  name : String
  reference_doctype : Option String
  reference_name : Option String
  timeline_links : List TimelineLink
  content : Option String
  subject : Option String
  sent_or_received : String
  phone_no : Option String
  creation : Nat
  deriving DecidableEq

/-- The document store's state, as far as the engine reads and writes it. -/
structure World where
  stories : List Story
  events : List StoryEvent
  trips : List Trip
  itinerariesDB : List ItineraryDoc
  deriving DecidableEq

/-! ## `sentra_core/story/normalize.py` -/

/-- The destination list built by `intent_from_trip` (rows with a truthy
`destination` link, in order). -/
def destinationsOf : List DestRow → List String
  | [] => []
  | r :: rest =>
    match r.destination with
    | some d => if d = "" then destinationsOf rest else d :: destinationsOf rest
    | none => destinationsOf rest

/-- `normalize.intent_from_trip(trip)`.  A present date renders as a
non-empty (hence truthy) string, mirroring Python `date` values being always
truthy; `pax` falls back to the passenger-details row count when falsy. -/
def intent_from_trip (trip : Trip) : Intent :=
  { destinations := destinationsOf trip.destination_city,
    dates_start := match trip.start_date with | some d => PyVal.pystr (toString d) | none => PyVal.pynone,
    dates_end := match trip.end_date with | some d => PyVal.pystr (toString d) | none => PyVal.pynone,
    dates_flex := match trip.flexible_days with | some s => PyVal.pystr s | none => PyVal.pynone,
    pax :=
      match trip.pax with
      | some n => if n = 0 then some (Int.ofNat trip.passenger_details.length) else some n
      | none => some (Int.ofNat trip.passenger_details.length) }

/-- Python `str.strip` whitespace (ASCII part). -/
def pySpace (c : Char) : Bool :=
  c = ' ' || c = '\t' || c = '\n' || c = '\r' || c = '\x0b' || c = '\x0c'

/-- Does a stored fact value look like a JSON object or array
(`value_raw.strip().startswith` on an opening brace or bracket)? -/
def looksJson (s : String) : Bool :=
  match s.data.dropWhile pySpace with
  | [] => false
  | c :: _ => c = '{' || c = '['

/-- The value decoding step of `story_facts_to_dict`: a truthy string that
looks like JSON is parsed, falling back to the raw string on a parse
failure; anything else passes through. -/
def decodeValue (v : Option String) : PyVal :=
  match v with
  | none => PyVal.pynone
  | some s =>
    if !(s == "") && looksJson s then (json_loads s).getD (PyVal.pystr s)
    else PyVal.pystr s

/-- Python `key_path.split(".")` on the character list. -/
def splitDotsAux (cur : List Char) : List Char → List String
  | [] => [String.mk cur.reverse]
  | c :: rest =>
    if c = '.' then String.mk cur.reverse :: splitDotsAux [] rest
    else splitDotsAux (c :: cur) rest

/-- Python `key_path.split(".")`. -/
def splitDots (s : String) : List String := splitDotsAux [] s.data

/-- The non-empty path parts of a dotted key. -/
def keyParts (s : String) : List String := (splitDots s).filter (fun p => !(p == ""))

/-- Python dict assignment `cursor[part] = v` on an insertion-ordered dict:
replace in place if the key exists, else append. -/
def dictSet (m : List (String × PyVal)) (k : String) (v : PyVal) : List (String × PyVal) :=
  match m with
  | [] => [(k, v)]
  | kv :: rest => if kv.1 = k then (k, v) :: rest else kv :: dictSet rest k v

/-- The cursor walk of `story_facts_to_dict`: descend along the path parts,
replacing a missing or non-dict intermediate with a fresh dict, and assign
the value at the final part. -/
def setPath (m : List (String × PyVal)) (parts : List String) (v : PyVal) : List (String × PyVal) :=
  match parts with
  | [] => m
  | [p] => dictSet m p v
  | p :: rest =>
    let sub : List (String × PyVal) :=
      match dictGet m p with
      | some (PyVal.pydict d) => d
      | _ => []
    dictSet m p (PyVal.pydict (setPath sub rest v))

/-- One loop iteration of `story_facts_to_dict`: skip empty keys, else
decode the value and assign it along the dotted path. -/
def buildStep (m : List (String × PyVal)) (row : FactRow) : List (String × PyVal) :=
  if row.key = "" then m
  else setPath m (keyParts row.key) (decodeValue row.value)

/-- Python `a or b` on optional timestamps (a present timestamp is truthy). -/
def orOptNat (a b : Option Nat) : Option Nat :=
  match a with
  | some x => some x
  | none => b

/-- The sort key of a fact row: `last_seen_at or modified or creation`.
(When every fallback is absent Python's `sorted` would raise on comparing
`None`; the embedding uses `0` and the theorems assume a present
timestamp.) -/
def factSortKey (r : FactRow) : Nat :=
  (orOptNat r.last_seen_at (orOptNat r.modified r.creation)).getD 0

/-- Stable insertion of `a` into `l`: walk past every element that strictly
precedes `a`. -/
def insertSorted {α : Type} (p : α → α → Bool) (a : α) : List α → List α
  | [] => [a]
  | b :: bs => if p b a then b :: insertSorted p a bs else a :: b :: bs

/-- Stable ascending sort (insertion sort), extensionally the stable sort
Python's `sorted` performs for the strict-precedence relation `p`. -/
def sortStable {α : Type} (p : α → α → Bool) : List α → List α
  | [] => []
  | a :: l => insertSorted p a (sortStable p l)

/-- Strict precedence of fact rows by sort key. -/
def factPrec (a b : FactRow) : Bool := decide (factSortKey a < factSortKey b)

/-- `normalize.story_facts_to_dict(story)`. -/
def story_facts_to_dict (story : Story) : List (String × PyVal) :=
  (sortStable factPrec story.facts).foldl buildStep []

/-! ## `sentra_core/story/comm_extract.py` -/

/-- Python `str.lower` (ASCII). -/
def lowerStr (s : String) : String := String.mk (s.data.map Char.toLower)

/-- A character of the regex class `[A-Z0-9\-]` under `IGNORECASE`. -/
def isTokenChar (c : Char) : Bool := c.isAlphanum || c = '-'

/-- A regex word character, for `\b`. -/
def isWordChar (c : Char) : Bool := c.isAlphanum || c = '_'

/-- Case-insensitive literal prefix match; returns the remainder. -/
def matchCI : List Char → List Char → Option (List Char)
  | [], rest => some rest
  | _, [] => none
  | p :: ps, c :: cs => if c.toLower = p.toLower then matchCI ps cs else none

/-- Attempt of the regex `/app/itinerary/([A-Z0-9\-]+)` (IGNORECASE) at the
start of the input; yields group 1. -/
def appItinAt (cs : List Char) : Option String :=
  match matchCI ("/app/itinerary/".data) cs with
  | some rest =>
    (let tok := rest.takeWhile isTokenChar
     if tok.isEmpty then none else some (String.mk tok))
  | none => none

/-- `re.search` of the app-path pattern: leftmost successful attempt. -/
def scanAppItin : List Char → Option String
  | [] => none
  | c :: cs =>
    match appItinAt (c :: cs) with
    | some t => some t
    | none => scanAppItin cs

/-- Attempt of `\bPCK-\d{4}-\d{4}\b` (IGNORECASE) at the start of the input
(the leading boundary is checked by the caller); yields group 0 in original
case. -/
def pckAt (cs : List Char) : Option String :=
  match cs with
  | p :: c :: k :: h1 :: d1 :: d2 :: d3 :: d4 :: h2 :: e1 :: e2 :: e3 :: e4 :: rest =>
    if p.toLower = 'p' && c.toLower = 'c' && k.toLower = 'k' && h1 = '-' &&
       d1.isDigit && d2.isDigit && d3.isDigit && d4.isDigit && h2 = '-' &&
       e1.isDigit && e2.isDigit && e3.isDigit && e4.isDigit &&
       (match rest with | [] => true | r :: _ => !isWordChar r) then
      some (String.mk [p, c, k, h1, d1, d2, d3, d4, h2, e1, e2, e3, e4])
    else none
  | _ => none

/-- `ITINERARY_CODE_RE.search`: leftmost match, tracking whether the
previous character was a word character for the leading `\b`. -/
def scanPck (prevWord : Bool) : List Char → Option String
  | [] => none
  | c :: rest =>
    match (if prevWord then none else pckAt (c :: rest)) with
    | some t => some t
    | none => scanPck (isWordChar c) rest

/-- Loop over `timeline_links`: first entry with doctype `Itinerary`
(case-insensitively) and a truthy name. -/
def firstItinLink : List TimelineLink → Option String
  | [] => none
  | l :: ls =>
    if truthyS l.link_doctype && lowerStr (l.link_doctype.getD "") == "itinerary" then
      match asTruthy l.link_name with
      | some n => some n
      | none => firstItinLink ls
    else firstItinLink ls

/-- The `text_blobs` list: truthy content, then truthy subject. -/
def commBlobs (comm : Comm) : List String :=
  (match asTruthy comm.content with | some s => [s] | none => []) ++
  (match asTruthy comm.subject with | some s => [s] | none => [])

/-- Per-blob scan: app path first, then the code pattern. -/
def scanBlob (blob : String) : Option (String × String) :=
  match scanAppItin blob.data with
  | some t => some (t, "content_path")
  | none =>
    match scanPck false blob.data with
    | some t => some (t, "code_pattern")
    | none => none

/-- Scan the blobs in order. -/
def scanBlobs : List String → Option (String × String)
  | [] => none
  | b :: bs =>
    match scanBlob b with
    | some r => some r
    | none => scanBlobs bs

/-- Steps 2 and 3 of the extractor (timeline links, then text blobs). -/
def extractSteps23 (comm : Comm) : Option String × Option String :=
  match firstItinLink comm.timeline_links with
  | some n => (some n, some ("timeline_link"))
  | none =>
    match scanBlobs (commBlobs comm) with
    | some r => (some r.1, some r.2)
    | none => (none, none)

/-- `comm_extract.extract_itinerary_ref_from_comm(comm)`. -/
def extract_itinerary_ref_from_comm (comm : Comm) : Option String × Option String :=
  if truthyS comm.reference_doctype && lowerStr (comm.reference_doctype.getD "") == "itinerary" then
    match asTruthy comm.reference_name with
    | some n => (some n, some ("reference_link"))
    | none => extractSteps23 comm
  else extractSteps23 comm

/-! ## `sentra_core/story/engine.py` -/

/-- `frappe.db.get_value("Story", ...)` / `frappe.get_doc("Story", ...)`:
first Story with the given contact. -/
def findStory : List Story → String → Option Story
  | [], _ => none
  | s :: rest, c => if s.contact = c then some s else findStory rest c

/-- `frappe.get_doc("Trip", name)`; `none` models the raised
`DoesNotExistError`. -/
def getTrip : List Trip → String → Option Trip
  | [], _ => none
  | t :: rest, n => if t.name = n then some t else getTrip rest n

/-- `doc.save()` on a Story fetched or created through `ensure_story`:
replace the stored row with the same contact. -/
def replaceStory : List Story → Story → List Story
  | [], _ => []
  | t :: rest, s => if t.contact = s.contact then s :: rest else t :: replaceStory rest s

/-- Persist a Story document. -/
def saveStory (w : World) (s : Story) : World :=
  { w with stories := replaceStory w.stories s }

/-- `engine.ensure_story(contact_name)`: fetch the Story for the contact, or
insert a fresh one with stage `Inquiry` and version 1. -/
def ensure_story (w : World) (now : Nat) (contact_name : String) : World × Story :=
  match findStory w.stories contact_name with
  | some st => (w, st)
  | none =>
    let st : Story :=
      { contact := contact_name, stage := some ("Inquiry"), story_version := some 1,
        primary_trip := none, last_built_at := some now,
        last_touch_from := some ("system"), last_touch_reason := some ("ensure_story"),
        facts := [], itineraries := [] }
    ({ w with stories := w.stories ++ [st] }, st)

/-- `engine._serialize_value(value)`. -/
def _serialize_value (value : PyVal) : String :=
  match value with
  | PyVal.pydict kvs => jsonDumps (PyVal.pydict kvs)
  | PyVal.pylist xs => jsonDumps (PyVal.pylist xs)
  | PyVal.pynone => ""
  | v => pyStrOf v

/-- The fact-collection update of `engine.upsert_fact`: overwrite the first
row with a matching key in place (source fields only when both are truthy),
else append a fresh row. -/
def upsert_fact_rows (now : Nat) (facts : List FactRow) (key : String) (value : PyVal)
    (source_doctype source_name : Option String) (precedence : String) : List FactRow :=
  match facts with
  | [] =>
    [{ key := key, value := some (_serialize_value value), precedence := some precedence,
       source_doc_type := source_doctype, source_doc := source_name,
       last_seen_at := some now, modified := none, creation := none }]
  | r :: rest =>
    if r.key = key then
      { r with
        value := some (_serialize_value value),
        precedence := some precedence,
        source_doc_type := if truthyS source_doctype && truthyS source_name then source_doctype else r.source_doc_type,
        source_doc := if truthyS source_doctype && truthyS source_name then source_name else r.source_doc,
        last_seen_at := some now } :: rest
    else r :: upsert_fact_rows now rest key value source_doctype source_name precedence

/-- `engine.upsert_fact(story, key, value, ...)`: update the facts child
table and save the Story immediately. -/
def upsert_fact (w : World) (now : Nat) (story : Story) (key : String) (value : PyVal)
    (source_doctype source_name : Option String) (precedence : String) : World × Story :=
  let story2 := { story with facts := upsert_fact_rows now story.facts key value source_doctype source_name precedence }
  (saveStory w story2, story2)

/-- `engine.append_event(story, event_type, ...)`: insert one immutable
Story Event with the JSON-dumped diff (`diff or ...` replaces a falsy diff
with an empty dict). -/
def append_event (w : World) (now : Nat) (story : Story) (event_type : String)
    (source_doctype source_name : Option String) (diff : Option PyVal) (actor : String) : World :=
  let d :=
    match diff with
    | some v => if pyTruthy v then v else PyVal.pydict []
    | none => PyVal.pydict []
  { w with
    events := w.events ++
      [{ contact := story.contact, event_type := event_type,
         source_doctype := source_doctype, source_ref := source_name,
         diff := jsonDumps d, actor := actor, created_at := now }] }

/-- `engine.choose_and_update_stage(story, ...)`: recompute the target
stage; on a change, mutate the Story, bump the version, refresh the
bookkeeping fields, save, and append one stage-diff event.  Returns the
updated store and the Story document object. -/
def choose_and_update_stage (w : World) (now : Nat) (story : Story)
    (has_contact has_itinerary : Bool) (itinerary_statuses : List (Option String))
    (trip_ready proposal_sent_flag : Bool) (mutation_reason : String)
    (source_doctype source_name : Option String) (event_type : String) : World × Story :=
  let old_stage := pyOr story.stage ("Inquiry")
  let new_stage := choose_stage (some old_stage) has_contact has_itinerary itinerary_statuses trip_ready proposal_sent_flag
  if new_stage = old_stage then (w, story)
  else
    let story2 :=
      { story with
        stage := some new_stage,
        story_version := some (story.story_version.getD 0 + 1),
        last_built_at := some now,
        last_touch_from := some ("system"),
        last_touch_reason := some mutation_reason }
    let w2 := saveStory w story2
    let w3 := append_event w2 now story2 event_type source_doctype source_name
      (some (PyVal.pydict [("stage", PyVal.pydict [("from", PyVal.pystr old_stage), ("to", PyVal.pystr new_stage)])]))
      ("system")
    (w3, story2)

/-- `frappe.get_all("Itinerary", filters=..., ...)`: the docs linked to the
trip. -/
def itinsWithTrip : List ItineraryDoc → String → List ItineraryDoc
  | [], _ => []
  | i :: rest, t => if i.trip = some t then i :: itinsWithTrip rest t else itinsWithTrip rest t

/-- `engine._itineraries_for_trip(trip_name)` (ordered by creation asc). -/
def _itineraries_for_trip (w : World) (trip_name : String) : List ItineraryDoc :=
  sortStable (fun a b => decide (a.creation < b.creation)) (itinsWithTrip w.itinerariesDB trip_name)

/-- The truthy-status list of `mark_proposal_sent`. -/
def truthyStatuses : List ItinSnapshotRow → List (Option String)
  | [] => []
  | r :: rest => if truthyS r.status then r.status :: truthyStatuses rest else truthyStatuses rest

/-- `engine.mark_proposal_sent(contact, itinerary, comm_name, sent_at)`. -/
def mark_proposal_sent (w : World) (now : Nat) (contact itinerary comm_name : String)
    (sent_at : Nat) : Option World :=
  let ws := ensure_story w now contact
  let ws2 := upsert_fact ws.1 now ws.2 ("proposal.itinerary") (PyVal.pystr itinerary)
    (some ("Communication")) (some comm_name) ("business_object")
  let ws3 := upsert_fact ws2.1 now ws2.2 ("proposal.sent_at") (PyVal.pystr (toString sent_at))
    (some ("Communication")) (some comm_name) ("business_object")
  let story := ws3.2
  let has_itinerary := !story.itineraries.isEmpty
  let itinerary_statuses := truthyStatuses story.itineraries
  let trip_ready? : Option Bool :=
    match asTruthy story.primary_trip with
    | some pt =>
      (match getTrip ws3.1.trips pt with
       | some trip => some (trip_ready_for_proposal (intent_from_trip trip))
       | none => none)
    | none => some false
  match trip_ready? with
  | none => none
  | some trip_ready =>
    some (choose_and_update_stage ws3.1 now story true has_itinerary itinerary_statuses trip_ready true
      ("first_itinerary_sent") (some ("Communication")) (some comm_name) ("business_object_updated")).1

/-- `filters={"customer": contact}` on Trip. -/
def tripsForCustomer : List Trip → String → List Trip
  | [], _ => []
  | t :: rest, c => if t.customer = some c then t :: tripsForCustomer rest c else tripsForCustomer rest c

/-- `engine._choose_primary_trip_for_contact(contact)`: nearest future
start date, else the most recently created Trip. -/
def _choose_primary_trip_for_contact (w : World) (today : Nat) (contact : String) : Option String :=
  let trips := sortStable (fun a b => decide (b.creation < a.creation)) (tripsForCustomer w.trips contact)
  match trips with
  | [] => none
  | t0 :: _ =>
    let future := trips.filter (fun t => match t.start_date with | some d => decide (today ≤ d) | none => false)
    match sortStable (fun a b => decide (a.start_date.getD 0 < b.start_date.getD 0)) future with
    | f :: _ => some f.name
    | [] => some t0.name

/-- The `itineraries` child-table refresh of the Itinerary branch of
`update_from_business`: update the matching snapshot row in place, else
append one. -/
def refreshSnaps : List ItinSnapshotRow → ItineraryDoc → List ItinSnapshotRow
  | [], it => [{ itinerary := it.name, status := it.status, valid_from := it.valid_from, valid_to := it.valid_to }]
  | r :: rest, it =>
    if r.itinerary = it.name then
      { r with status := it.status, valid_from := it.valid_from, valid_to := it.valid_to } :: rest
    else r :: refreshSnaps rest it

/-- A business-object change notification: a Trip or an Itinerary document. -/
inductive BizDoc where
  | trip (t : Trip) : BizDoc
  | itin (i : ItineraryDoc) : BizDoc
  deriving DecidableEq

/-- `engine.update_from_business(doc)`.  `today` is `getdate(nowdate())`
for the primary-trip heuristic; `none` models an uncaught store error
(`frappe.get_doc` on a missing Trip). -/
def update_from_business (w : World) (now today : Nat) (doc : BizDoc) : Option World :=
  match doc with
  | BizDoc.trip trip =>
    (match asTruthy trip.customer with
     | none => some w
     | some contact =>
       let ws := ensure_story w now contact
       let new_primary := _choose_primary_trip_for_contact ws.1 today contact
       let ws2 : World × Story :=
         match new_primary with
         | some np =>
           if ws.2.primary_trip ≠ some np then
             (saveStory ws.1 { ws.2 with primary_trip := some np }, { ws.2 with primary_trip := some np })
           else ws
         | none => ws
       let trip_ready := trip_ready_for_proposal (intent_from_trip trip)
       let itins := _itineraries_for_trip ws2.1 trip.name
       let has_itinerary := !itins.isEmpty
       let itinerary_statuses := itins.map (fun i => i.status)
       let proposal_sent_flag := proposal_sent (story_facts_to_dict ws2.2)
       some (choose_and_update_stage ws2.1 now ws2.2 true has_itinerary itinerary_statuses trip_ready
         proposal_sent_flag ("trip_updated") (some ("Trip")) (some trip.name) ("business_object_updated")).1)
  | BizDoc.itin itinerary =>
    (match asTruthy itinerary.trip with
     | none => some w
     | some trip_name =>
       match getTrip w.trips trip_name with
       | none => none
       | some trip =>
         match asTruthy trip.customer with
         | none => some w
         | some contact =>
           let ws := ensure_story w now contact
           let story2 := { ws.2 with itineraries := refreshSnaps ws.2.itineraries itinerary }
           let w2 := saveStory ws.1 story2
           let itins := _itineraries_for_trip w2 trip.name
           let has_itinerary := !itins.isEmpty
           let itinerary_statuses := itins.map (fun i => i.status)
           let trip_ready := trip_ready_for_proposal (intent_from_trip trip)
           let proposal_sent_flag := proposal_sent (story_facts_to_dict story2)
           some (choose_and_update_stage w2 now story2 true has_itinerary itinerary_statuses trip_ready
             proposal_sent_flag ("itinerary_updated") (some ("Itinerary")) (some itinerary.name)
             ("business_object_updated")).1)

/-- The contact resolution of `update_from_comm`: an explicit Contact
reference wins; else the phone-based WhatsApp helper (an external
collaborator, modelled by `resolver`; its exceptions are caught to `none`);
a falsy result means no contact. -/
def resolve_contact (resolver : String → Option String) (comm : Comm) : Option String :=
  let c1 : Option String :=
    match comm.reference_doctype, asTruthy comm.reference_name with
    | some ("Contact"), some n => some n
    | _, _ => none
  let c2 : Option String :=
    match c1 with
    | some c => some c
    | none =>
      match asTruthy comm.phone_no with
      | some p => resolver p
      | none => none
  match c2 with
  | some c => if c = "" then none else some c
  | none => none

/-- `engine.update_from_comm(doc)`. -/
def update_from_comm (resolver : String → Option String) (w : World) (now : Nat)
    (comm : Comm) : Option World :=
  match resolve_contact resolver comm with
  | none => some w
  | some contact_name =>
    let ws := ensure_story w now contact_name
    if comm.sent_or_received = "Sent" then
      let ext := extract_itinerary_ref_from_comm comm
      let already_sent := proposal_sent (story_facts_to_dict ws.2)
      match asTruthy ext.1 with
      | some itinerary_name =>
        if !already_sent then
          mark_proposal_sent ws.1 now contact_name itinerary_name comm.name comm.creation
        else some ws.1
      | none => some ws.1
    else if comm.sent_or_received = "Received" then
      let computed : Option (Bool × Bool × List (Option String)) :=
        match asTruthy ws.2.primary_trip with
        | some pt =>
          (match getTrip ws.1.trips pt with
           | none => none
           | some trip =>
             let itins := _itineraries_for_trip ws.1 trip.name
             some (trip_ready_for_proposal (intent_from_trip trip), !itins.isEmpty,
               itins.map (fun i => i.status)))
        | none => some (false, false, [])
      match computed with
      | none => none
      | some c =>
        let proposal_sent_flag := proposal_sent (story_facts_to_dict ws.2)
        some (choose_and_update_stage ws.1 now ws.2 true c.2.1 c.2.2 c.1 proposal_sent_flag
          ("inbound_message") (some ("Communication")) (some comm.name) ("communication_created")).1
    else some ws.1

/-- One `choose_and_update_stage` call bundle, for reasoning about call
sequences. -/
structure StageInput where
  now : Nat
  has_contact : Bool
  has_itinerary : Bool
  itinerary_statuses : List (Option String)
  trip_ready : Bool
  proposal_sent_flag : Bool
  mutation_reason : String
  source_doctype : Option String
  source_name : Option String
  event_type : String
  deriving DecidableEq

/-- Apply one bundled `choose_and_update_stage` call. -/
def casStep (ws : World × Story) (i : StageInput) : World × Story :=
  choose_and_update_stage ws.1 i.now ws.2 i.has_contact i.has_itinerary i.itinerary_statuses
    i.trip_ready i.proposal_sent_flag i.mutation_reason i.source_doctype i.source_name i.event_type

/-- The trajectory of states along a sequence of `choose_and_update_stage`
calls (including the initial state). -/
def casRun (ws : World × Story) : List StageInput → List (World × Story)
  | [] => [ws]
  | i :: rest => ws :: casRun (casStep ws i) rest

/-! ## Spec-side definitions and reasoning helpers -/

/-- The first-match target-stage cascade (lines 51-58 of `rules.py`),
before the forward-only clamp. -/
def targetStage (has_contact has_itinerary trip_ready proposal_sent_flag : Bool) : String :=
  if proposal_sent_flag then ("Negotiation")
  else if has_itinerary || trip_ready then ("Proposal")
  else if has_contact then ("Discovery")
  else ("Inquiry")

/-- The Story's stage field holds one of the seven stage names. -/
def stageOk (st : Story) : Prop := ∃ s ∈ stageNames, st.stage = some s

/-- One bundled `upsert_fact` call, for reasoning about call sequences. -/
structure UpsertCall where
  now : Nat
  key : String
  value : PyVal
  source_doctype : Option String
  source_name : Option String
  precedence : String

/-- Apply a sequence of `upsert_fact` calls to a fact collection. -/
def applyCalls (facts : List FactRow) (calls : List UpsertCall) : List FactRow :=
  calls.foldl
    (fun f c => upsert_fact_rows c.now f c.key c.value c.source_doctype c.source_name c.precedence)
    facts

/-- First fact row with the given key. -/
def findRow : List FactRow → String → Option FactRow
  | [], _ => none
  | r :: rest, k => if r.key = k then some r else findRow rest k

/-- The keys of a fact collection, in row order. -/
def factKeys (l : List FactRow) : List String := l.map (fun r => r.key)

/-- The value of the most recent call for a key in a call sequence. -/
def lastValFor (calls : List UpsertCall) (k : String) : Option PyVal :=
  calls.foldl (fun acc c => if c.key = k then some c.value else acc) none

/-! Concrete fixtures for witnesses. -/

/-- A fresh Story at stage Inquiry. -/
def sampleStory : Story :=
  { contact := "C1", stage := some ("Inquiry"), story_version := some 1, primary_trip := none,
    last_built_at := none, last_touch_from := none, last_touch_reason := none,
    facts := [], itineraries := [] }

/-- A store holding only `sampleStory`. -/
def sampleWorld : World :=
  { stories := [sampleStory], events := [], trips := [], itinerariesDB := [] }

/-- A Story whose facts already record a sent proposal. -/
def sentStory : Story :=
  { contact := "C9", stage := some ("Negotiation"), story_version := some 3, primary_trip := none,
    last_built_at := none, last_touch_from := none, last_touch_reason := none,
    facts := [{ key := "proposal.sent_at", value := some ("2024-01-01"),
                precedence := some ("business_object"), source_doc_type := none,
                source_doc := none, last_seen_at := some 5, modified := none, creation := none }],
    itineraries := [] }

/-- A store holding only `sentStory`. -/
def sentWorld : World :=
  { stories := [sentStory], events := [], trips := [], itinerariesDB := [] }

/-- A Sent Communication carrying both a Contact reference and an
extractable itinerary path in its content. -/
def sentComm : Comm :=
  { name := "COMM-1", reference_doctype := some ("Contact"), reference_name := some ("C9"),
    timeline_links := [], content := some ("see /app/itinerary/ITIN-7"), subject := none,
    sent_or_received := "Sent", phone_no := none, creation := 10 }

/-- A Communication satisfying both the reference-doctype extraction and the
code-pattern extraction simultaneously. -/
def dualComm : Comm :=
  { name := "COMM-2", reference_doctype := some ("Itinerary"), reference_name := some ("ITIN-9"),
    timeline_links := [], content := some ("code PCK-1234-5678"), subject := none,
    sent_or_received := "Sent", phone_no := none, creation := 3 }

/-- A phone resolver that never finds a contact. -/
def noResolver : String → Option String := fun _ => none

/-- A bundled stage-update call with a contact signal only. -/
def inputA : StageInput :=
  { now := 1, has_contact := true, has_itinerary := false, itinerary_statuses := [],
    trip_ready := false, proposal_sent_flag := false, mutation_reason := "inbound_message",
    source_doctype := some ("Communication"), source_name := some ("CM-1"),
    event_type := "communication_created" }

/-- A bundled stage-update call with an itinerary signal. -/
def inputB : StageInput :=
  { now := 2, has_contact := true, has_itinerary := true, itinerary_statuses := [some ("Draft")],
    trip_ready := false, proposal_sent_flag := false, mutation_reason := "itinerary_updated",
    source_doctype := some ("Itinerary"), source_name := some ("IT-1"),
    event_type := "business_object_updated" }

/-- A Communication whose reference doctype is not Itinerary but whose
timeline links carry one (mixed case). -/
def tlComm : Comm :=
  { name := "CM-3", reference_doctype := some ("Communication"), reference_name := some ("X"),
    timeline_links := [{ link_doctype := some ("Trip"), link_name := some ("T9") },
                       { link_doctype := some ("ITINERARY"), link_name := some ("ITL-1") }],
    content := none, subject := none, sent_or_received := "Received", phone_no := none,
    creation := 1 }

/-- A Communication whose content holds a code pattern while its subject
holds an app path (content is scanned first). -/
def blobComm : Comm :=
  { name := "CM-4", reference_doctype := none, reference_name := some ("IGNORED"),
    timeline_links := [{ link_doctype := some ("Itinerary"), link_name := none }],
    content := some ("code pck-1111-2222 inside"), subject := some ("/app/itinerary/SUBJ-1"),
    sent_or_received := "Received", phone_no := none, creation := 1 }

/-- A Communication on which every extraction method fails (the Itinerary
reference doctype is set but the reference name is empty). -/
def emptyComm : Comm :=
  { name := "CM-5", reference_doctype := some ("Itinerary"), reference_name := some (""),
    timeline_links := [], content := some ("nothing here"), subject := none,
    sent_or_received := "Received", phone_no := none, creation := 1 }

/-- A Trip without a customer. -/
def noCustTrip : Trip :=
  { name := "T0", customer := none, destination_city := [], start_date := none, end_date := none,
    flexible_days := none, pax := none, passenger_details := [], creation := 1 }

/-- An Itinerary not linked to any Trip. -/
def orphanItin : ItineraryDoc :=
  { name := "I0", trip := none, status := some ("Draft"), valid_from := none, valid_to := none,
    creation := 1 }

/-- An Itinerary linked to the customerless Trip `T0`. -/
def linkedItin : ItineraryDoc :=
  { name := "I1", trip := some ("T0"), status := some ("Draft"), valid_from := none,
    valid_to := none, creation := 2 }

/-- A store holding the customerless Trip and its Itinerary, and no
Stories. -/
def tripWorld : World :=
  { stories := [], events := [], trips := [noCustTrip], itinerariesDB := [linkedItin] }

/-- A Communication with no Contact reference and no phone number. -/
def strayComm : Comm :=
  { name := "CM-9", reference_doctype := none, reference_name := none, timeline_links := [],
    content := none, subject := none, sent_or_received := "Received", phone_no := none,
    creation := 2 }

/-- An initial fact row under key `a`. -/
def rowA : FactRow :=
  { key := "a", value := some ("old"), precedence := some ("business_object"),
    source_doc_type := none, source_doc := none, last_seen_at := some 1, modified := none,
    creation := none }

/-- A sample `upsert_fact` call sequence touching keys `a`, `b`, `a`. -/
def callsC5 : List UpsertCall :=
  [{ now := 10, key := "a", value := PyVal.pystr ("v1"), source_doctype := none,
     source_name := none, precedence := "business_object" },
   { now := 11, key := "b", value := PyVal.pydict [("x", PyVal.pyint 1)],
     source_doctype := some ("Trip"), source_name := some ("T1"), precedence := "business_object" },
   { now := 12, key := "a", value := PyVal.pynone, source_doctype := none,
     source_name := none, precedence := "business_object" }]

/-- A fact row with a given key, timestamp and string value. -/
def c6rowK (key : String) (t : Nat) (v : String) : FactRow :=
  { key := key, value := some v, precedence := some ("business_object"),
    source_doc_type := none, source_doc := none, last_seen_at := some t, modified := none,
    creation := none }

/-- A Story with three rows under the same dotted key, the middle one
chronologically latest. -/
def c6story : Story :=
  { contact := "C6", stage := some ("Inquiry"), story_version := some 1, primary_trip := none,
    last_built_at := none, last_touch_from := none, last_touch_reason := none,
    facts := [c6rowK ("p.q") 1 ("one"), c6rowK ("p.q") 5 ("two"), c6rowK ("p.q") 3 ("three")],
    itineraries := [] }

/-- A Story where a leaf write under `a` postdates a deeper write under
`a.b`. -/
def c6leafLater : Story :=
  { contact := "C6L", stage := some ("Inquiry"), story_version := some 1, primary_trip := none,
    last_built_at := none, last_touch_from := none, last_touch_reason := none,
    facts := [c6rowK ("a.b") 1 ("deep"), c6rowK ("a") 2 ("leaf")], itineraries := [] }

/-- A Story where a deeper write under `a.b` postdates a leaf write under
`a`. -/
def c6deepLater : Story :=
  { contact := "C6D", stage := some ("Inquiry"), story_version := some 1, primary_trip := none,
    last_built_at := none, last_touch_from := none, last_touch_reason := none,
    facts := [c6rowK ("a") 1 ("leaf"), c6rowK ("a.b") 2 ("deep")], itineraries := [] }

/-! # Theorems -/

theorem stageNames_ne_empty : ∀ s ∈ stageNames, s ≠ "" := by decide

theorem targetStage_mem : ∀ hc hi tr ps : Bool, targetStage hc hi tr ps ∈ stageNames := by decide

theorem targetStage_not_bfp :
    ∀ hc hi tr ps : Bool,
      targetStage hc hi tr ps ∉ (["Booking", "Fulfillment", "Post-trip"] : List String) := by decide

theorem choose_stage_eq_clamp {α : Type} (c : Option String) (hc hi tr ps : Bool) (l : List α) :
    choose_stage c hc hi l tr ps =
      (if stageOrderGet (targetStage hc hi tr ps) 0 < stageOrderGet (pyOr c ("Inquiry")) 0
       then pyOr c ("Inquiry") else targetStage hc hi tr ps) := rfl

theorem choose_stage_rank_mono :
    ∀ s ∈ stageNames, ∀ ps hi tr hc : Bool,
      choose_stage (some s) hc hi ([] : List Unit) tr ps ∈ stageNames ∧
      stageOrderGet s 0 ≤ stageOrderGet (choose_stage (some s) hc hi ([] : List Unit) tr ps) 0 := by
  decide

theorem pyOr_eq_of_ne (c : Option String) (d : String) (h : pyOr c d ≠ d) :
    c = some (pyOr c d) := by
  cases c with
  | none => exact absurd rfl h
  | some s =>
    by_cases hs : s = ""
    · exact absurd (by simp [pyOr, hs]) h
    · simp [pyOr, hs]

theorem stageOrderGet_not_mem (s : String) (h : s ∉ stageNames) : stageOrderGet s 0 = 0 := by
  simp [stageNames] at h
  obtain ⟨h1, h2, h3, h4, h5, h6, h7⟩ := h
  simp [stageOrderGet, assocGetNat, STAGE_ORDER, Ne.symm h1, Ne.symm h2, Ne.symm h3,
    Ne.symm h4, Ne.symm h5, Ne.symm h6, Ne.symm h7]

/-- Claim C3: when the computed target's rank is not below the current
stage's rank, `choose_stage` returns the first-match cascade target
(`Negotiation` if `proposal_sent_flag`, else `Proposal` if `has_itinerary`
or `trip_ready`, else `Discovery` if `has_contact`, else `Inquiry`); the
`itinerary_statuses` argument never affects the result; and a result of
`Booking`, `Fulfillment` or `Post-trip` is only possible when it is already
the current stage. -/
theorem c3_choose_stage_first_match
    (c₁ : Option String) (hc₁ hi₁ tr₁ ps₁ : Bool) (l₁ : List (Option String))
    (h₁ : stageOrderGet (pyOr c₁ ("Inquiry")) 0 ≤ stageOrderGet (targetStage hc₁ hi₁ tr₁ ps₁) 0)
    {α β : Type} (c₂ : Option String) (hc₂ hi₂ tr₂ ps₂ : Bool) (l₂ : List α) (l₂' : List β)
    (c₃ : Option String) (hc₃ hi₃ tr₃ ps₃ : Bool) (l₃ : List (Option String))
    (h₃ : choose_stage c₃ hc₃ hi₃ l₃ tr₃ ps₃ ∈ (["Booking", "Fulfillment", "Post-trip"] : List String)) :
    choose_stage c₁ hc₁ hi₁ l₁ tr₁ ps₁ = targetStage hc₁ hi₁ tr₁ ps₁ ∧
    choose_stage c₂ hc₂ hi₂ l₂ tr₂ ps₂ = choose_stage c₂ hc₂ hi₂ l₂' tr₂ ps₂ ∧
    c₃ = some (choose_stage c₃ hc₃ hi₃ l₃ tr₃ ps₃) := by
  refine ⟨?_, rfl, ?_⟩
  · rw [choose_stage_eq_clamp, if_neg (by omega)]
  · rw [choose_stage_eq_clamp] at h₃ ⊢
    by_cases hcl : stageOrderGet (targetStage hc₃ hi₃ tr₃ ps₃) 0 < stageOrderGet (pyOr c₃ ("Inquiry")) 0
    · rw [if_pos hcl] at h₃ ⊢
      have hne : pyOr c₃ ("Inquiry") ≠ "Inquiry" := by
        intro he
        rw [he] at h₃
        exact absurd h₃ (by decide)
      exact pyOr_eq_of_ne c₃ ("Inquiry") hne
    · rw [if_neg hcl] at h₃
      exact absurd h₃ (targetStage_not_bfp hc₃ hi₃ tr₃ ps₃)

theorem c3_choose_stage_first_match_witness :
    (stageOrderGet (pyOr (some ("Inquiry")) ("Inquiry")) 0 ≤ stageOrderGet (targetStage true false false false) 0) ∧
    (choose_stage (some ("Booking")) false false ([] : List (Option String)) false false ∈
      (["Booking", "Fulfillment", "Post-trip"] : List String)) ∧
    (choose_stage (some ("Inquiry")) true false ([] : List (Option String)) false false = targetStage true false false false ∧
     choose_stage (some ("Discovery")) true true ([] : List Unit) false false = choose_stage (some ("Discovery")) true true ([] : List Bool) false false ∧
     some ("Booking") = some (choose_stage (some ("Booking")) false false ([] : List (Option String)) false false)) :=
  ⟨by decide, by decide,
    c3_choose_stage_first_match (some ("Inquiry")) true false false false [] (by decide)
      (some ("Discovery")) true true false false ([] : List Unit) ([] : List Bool)
      (some ("Booking")) false false false false [] (by decide)⟩

/-- Claim C4: for every intent whose pax entry is an integer or absent,
`trip_ready_for_proposal` is true exactly when the destinations list is
non-empty, the dates are usable (both start and end truthy, or flex truthy
with string form different from the literal `Exact dates`), and pax is
present and positive. -/
theorem c4_readiness_law (intent : Intent) :
    trip_ready_for_proposal intent = true ↔
      (intent.destinations ≠ [] ∧
       ((pyTruthy intent.dates_start = true ∧ pyTruthy intent.dates_end = true) ∨
        (pyTruthy intent.dates_flex = true ∧ pyStrOf intent.dates_flex ≠ "Exact dates")) ∧
       (∃ n, intent.pax = some n ∧ 0 < n)) := by
  unfold trip_ready_for_proposal
  cases hp : intent.pax with
  | none => simp
  | some n =>
    by_cases hn : n = 0
    · subst hn
      simp
    · simp [hn, Bool.and_eq_true, Bool.or_eq_true, and_assoc]

theorem choose_stage_unrecognized {α : Type} (s : String) (hs : s ∉ stageNames) (hne : s ≠ "")
    (hc hi tr ps : Bool) (l : List α) :
    choose_stage (some s) hc hi l tr ps = targetStage hc hi tr ps := by
  rw [choose_stage_eq_clamp]
  have h0 : pyOr (some s) ("Inquiry") = s := by simp [pyOr, hne]
  rw [h0, stageOrderGet_not_mem s hs]
  simp

theorem choose_stage_from_inquiry {α : Type} (hc hi tr ps : Bool) (l : List α) :
    choose_stage (some ("Inquiry")) hc hi l tr ps = targetStage hc hi tr ps := by
  rw [choose_stage_eq_clamp]
  have h0 : stageOrderGet (pyOr (some ("Inquiry")) ("Inquiry")) 0 = 0 := by decide
  rw [h0]
  simp

/-- Claim C2: `choose_and_update_stage` is an idempotent no-op when the
recomputed target equals the current stage (no save, no field change, no
event); otherwise it sets the stage to the target, bumps `story_version` by
one, refreshes the bookkeeping fields, persists the Story, and inserts
exactly one Story Event whose diff records the from/to stages. -/
theorem c2_stage_transition
    (w₁ : World) (now₁ : Nat) (st₁ : Story) (hc₁ hi₁ : Bool) (l₁ : List (Option String))
    (tr₁ ps₁ : Bool) (r₁ : String) (sd₁ sn₁ : Option String) (et₁ : String)
    (h₁ : choose_stage (some (pyOr st₁.stage ("Inquiry"))) hc₁ hi₁ l₁ tr₁ ps₁ = pyOr st₁.stage ("Inquiry"))
    (w₂ : World) (now₂ : Nat) (st₂ : Story) (hc₂ hi₂ : Bool) (l₂ : List (Option String))
    (tr₂ ps₂ : Bool) (r₂ : String) (sd₂ sn₂ : Option String) (et₂ : String)
    (h₂ : choose_stage (some (pyOr st₂.stage ("Inquiry"))) hc₂ hi₂ l₂ tr₂ ps₂ ≠ pyOr st₂.stage ("Inquiry")) :
    choose_and_update_stage w₁ now₁ st₁ hc₁ hi₁ l₁ tr₁ ps₁ r₁ sd₁ sn₁ et₁ = (w₁, st₁) ∧
    ((choose_and_update_stage w₂ now₂ st₂ hc₂ hi₂ l₂ tr₂ ps₂ r₂ sd₂ sn₂ et₂).2 =
       { st₂ with
         stage := some (choose_stage (some (pyOr st₂.stage ("Inquiry"))) hc₂ hi₂ l₂ tr₂ ps₂),
         story_version := some (st₂.story_version.getD 0 + 1),
         last_built_at := some now₂,
         last_touch_from := some ("system"),
         last_touch_reason := some r₂ } ∧
     (choose_and_update_stage w₂ now₂ st₂ hc₂ hi₂ l₂ tr₂ ps₂ r₂ sd₂ sn₂ et₂).1.stories =
       replaceStory w₂.stories (choose_and_update_stage w₂ now₂ st₂ hc₂ hi₂ l₂ tr₂ ps₂ r₂ sd₂ sn₂ et₂).2 ∧
     (choose_and_update_stage w₂ now₂ st₂ hc₂ hi₂ l₂ tr₂ ps₂ r₂ sd₂ sn₂ et₂).1.events =
       w₂.events ++
         [{ contact := st₂.contact, event_type := et₂, source_doctype := sd₂, source_ref := sn₂,
            diff := jsonDumps (PyVal.pydict [("stage", PyVal.pydict
              [("from", PyVal.pystr (pyOr st₂.stage ("Inquiry"))),
               ("to", PyVal.pystr (choose_stage (some (pyOr st₂.stage ("Inquiry"))) hc₂ hi₂ l₂ tr₂ ps₂))])]),
            actor := "system", created_at := now₂ }] ∧
     (choose_and_update_stage w₂ now₂ st₂ hc₂ hi₂ l₂ tr₂ ps₂ r₂ sd₂ sn₂ et₂).1.trips = w₂.trips ∧
     (choose_and_update_stage w₂ now₂ st₂ hc₂ hi₂ l₂ tr₂ ps₂ r₂ sd₂ sn₂ et₂).1.itinerariesDB = w₂.itinerariesDB) := by
  constructor
  · simp only [choose_and_update_stage]
    rw [if_pos h₁]
  · simp only [choose_and_update_stage]
    rw [if_neg h₂]
    exact ⟨rfl, rfl, rfl, rfl, rfl⟩

theorem c2_stage_transition_witness :
    (choose_stage (some (pyOr sentStory.stage ("Inquiry"))) false false ([] : List (Option String)) false false
       = pyOr sentStory.stage ("Inquiry") ∧
     choose_stage (some (pyOr sampleStory.stage ("Inquiry"))) true false ([] : List (Option String)) false false
       ≠ pyOr sampleStory.stage ("Inquiry")) ∧
    (choose_and_update_stage sentWorld 7 sentStory false false [] false false ("inbound_message") none none ("communication_created") = (sentWorld, sentStory) ∧
     ((choose_and_update_stage sampleWorld 8 sampleStory true false [] false false ("inbound_message") (some ("Communication")) (some ("CM-2")) ("communication_created")).2 =
        { sampleStory with
          stage := some (choose_stage (some (pyOr sampleStory.stage ("Inquiry"))) true false ([] : List (Option String)) false false),
          story_version := some (sampleStory.story_version.getD 0 + 1),
          last_built_at := some 8,
          last_touch_from := some ("system"),
          last_touch_reason := some ("inbound_message") } ∧
      (choose_and_update_stage sampleWorld 8 sampleStory true false [] false false ("inbound_message") (some ("Communication")) (some ("CM-2")) ("communication_created")).1.stories =
        replaceStory sampleWorld.stories (choose_and_update_stage sampleWorld 8 sampleStory true false [] false false ("inbound_message") (some ("Communication")) (some ("CM-2")) ("communication_created")).2 ∧
      (choose_and_update_stage sampleWorld 8 sampleStory true false [] false false ("inbound_message") (some ("Communication")) (some ("CM-2")) ("communication_created")).1.events =
        sampleWorld.events ++
          [{ contact := sampleStory.contact, event_type := "communication_created",
             source_doctype := some ("Communication"), source_ref := some ("CM-2"),
             diff := jsonDumps (PyVal.pydict [("stage", PyVal.pydict
               [("from", PyVal.pystr (pyOr sampleStory.stage ("Inquiry"))),
                ("to", PyVal.pystr (choose_stage (some (pyOr sampleStory.stage ("Inquiry"))) true false ([] : List (Option String)) false false))])]),
             actor := "system", created_at := 8 }] ∧
      (choose_and_update_stage sampleWorld 8 sampleStory true false [] false false ("inbound_message") (some ("Communication")) (some ("CM-2")) ("communication_created")).1.trips = sampleWorld.trips ∧
      (choose_and_update_stage sampleWorld 8 sampleStory true false [] false false ("inbound_message") (some ("Communication")) (some ("CM-2")) ("communication_created")).1.itinerariesDB = sampleWorld.itinerariesDB)) :=
  ⟨⟨by decide, by decide⟩,
    c2_stage_transition sentWorld 7 sentStory false false [] false false ("inbound_message") none none ("communication_created") (by decide)
      sampleWorld 8 sampleStory true false [] false false ("inbound_message") (some ("Communication")) (some ("CM-2")) ("communication_created") (by decide)⟩

/-- Claim C10: an unrecognized non-empty current stage has rank 0, so the
forward-only clamp never retains it: `choose_stage` returns the computed
target, and `choose_and_update_stage` overwrites the unrecognized value
with the target, emitting an event; a `None` or empty current stage is treated as
`Inquiry` both for the rank comparison and for the event's from field. -/
theorem c10_unrecognized_stage
    (s₁ : String) (hs₁ : s₁ ∉ stageNames) (hne₁ : s₁ ≠ "")
    (hc₁ hi₁ tr₁ ps₁ : Bool) (l₁ : List (Option String))
    (w₂ : World) (now₂ : Nat) (st₂ : Story) (s₂ : String)
    (hstage₂ : st₂.stage = some s₂) (hs₂ : s₂ ∉ stageNames) (hne₂ : s₂ ≠ "")
    (hc₂ hi₂ : Bool) (l₂ : List (Option String)) (tr₂ ps₂ : Bool)
    (r₂ : String) (sd₂ sn₂ : Option String) (et₂ : String)
    (hc₃ hi₃ tr₃ ps₃ : Bool) (l₃ : List (Option String))
    (w₄ : World) (now₄ : Nat) (st₄ : Story) (hstage₄ : st₄.stage = none)
    (hc₄ hi₄ : Bool) (l₄ : List (Option String)) (tr₄ ps₄ : Bool)
    (r₄ : String) (sd₄ sn₄ : Option String) (et₄ : String)
    (htgt₄ : targetStage hc₄ hi₄ tr₄ ps₄ ≠ "Inquiry")
    (w₅ : World) (now₅ : Nat) (st₅ : Story) (hstage₅ : st₅.stage = some (""))
    (hc₅ hi₅ : Bool) (l₅ : List (Option String)) (tr₅ ps₅ : Bool)
    (r₅ : String) (sd₅ sn₅ : Option String) (et₅ : String)
    (htgt₅ : targetStage hc₅ hi₅ tr₅ ps₅ ≠ "Inquiry") :
    choose_stage (some s₁) hc₁ hi₁ l₁ tr₁ ps₁ = targetStage hc₁ hi₁ tr₁ ps₁ ∧
    ((choose_and_update_stage w₂ now₂ st₂ hc₂ hi₂ l₂ tr₂ ps₂ r₂ sd₂ sn₂ et₂).2.stage =
        some (targetStage hc₂ hi₂ tr₂ ps₂) ∧
     (choose_and_update_stage w₂ now₂ st₂ hc₂ hi₂ l₂ tr₂ ps₂ r₂ sd₂ sn₂ et₂).1.events =
        w₂.events ++ [{ contact := st₂.contact, event_type := et₂, source_doctype := sd₂,
                        source_ref := sn₂,
                        diff := jsonDumps (PyVal.pydict [("stage", PyVal.pydict
                          [("from", PyVal.pystr s₂), ("to", PyVal.pystr (targetStage hc₂ hi₂ tr₂ ps₂))])]),
                        actor := "system", created_at := now₂ }]) ∧
    choose_stage (none : Option String) hc₃ hi₃ l₃ tr₃ ps₃ = choose_stage (some ("Inquiry")) hc₃ hi₃ l₃ tr₃ ps₃ ∧
    choose_stage (some ("")) hc₃ hi₃ l₃ tr₃ ps₃ = choose_stage (some ("Inquiry")) hc₃ hi₃ l₃ tr₃ ps₃ ∧
    ((choose_and_update_stage w₄ now₄ st₄ hc₄ hi₄ l₄ tr₄ ps₄ r₄ sd₄ sn₄ et₄).2.stage =
        some (targetStage hc₄ hi₄ tr₄ ps₄) ∧
     (choose_and_update_stage w₄ now₄ st₄ hc₄ hi₄ l₄ tr₄ ps₄ r₄ sd₄ sn₄ et₄).1.events =
        w₄.events ++ [{ contact := st₄.contact, event_type := et₄, source_doctype := sd₄,
                        source_ref := sn₄,
                        diff := jsonDumps (PyVal.pydict [("stage", PyVal.pydict
                          [("from", PyVal.pystr ("Inquiry")), ("to", PyVal.pystr (targetStage hc₄ hi₄ tr₄ ps₄))])]),
                        actor := "system", created_at := now₄ }]) ∧
    ((choose_and_update_stage w₅ now₅ st₅ hc₅ hi₅ l₅ tr₅ ps₅ r₅ sd₅ sn₅ et₅).2.stage =
        some (targetStage hc₅ hi₅ tr₅ ps₅) ∧
     (choose_and_update_stage w₅ now₅ st₅ hc₅ hi₅ l₅ tr₅ ps₅ r₅ sd₅ sn₅ et₅).1.events =
        w₅.events ++ [{ contact := st₅.contact, event_type := et₅, source_doctype := sd₅,
                        source_ref := sn₅,
                        diff := jsonDumps (PyVal.pydict [("stage", PyVal.pydict
                          [("from", PyVal.pystr ("Inquiry")), ("to", PyVal.pystr (targetStage hc₅ hi₅ tr₅ ps₅))])]),
                        actor := "system", created_at := now₅ }]) := by
  refine ⟨choose_stage_unrecognized s₁ hs₁ hne₁ hc₁ hi₁ tr₁ ps₁ l₁, ?_, rfl, rfl, ?_, ?_⟩
  · have hpy : pyOr st₂.stage ("Inquiry") = s₂ := by rw [hstage₂]; simp [pyOr, hne₂]
    have hne : targetStage hc₂ hi₂ tr₂ ps₂ ≠ s₂ := by
      intro he
      exact hs₂ (he ▸ targetStage_mem hc₂ hi₂ tr₂ ps₂)
    simp only [choose_and_update_stage, hpy]
    rw [choose_stage_unrecognized s₂ hs₂ hne₂ hc₂ hi₂ tr₂ ps₂ l₂, if_neg hne]
    exact ⟨rfl, rfl⟩
  · have hpy : pyOr st₄.stage ("Inquiry") = "Inquiry" := by rw [hstage₄]; rfl
    simp only [choose_and_update_stage, hpy]
    rw [choose_stage_from_inquiry hc₄ hi₄ tr₄ ps₄ l₄, if_neg htgt₄]
    exact ⟨rfl, rfl⟩
  · have hpy : pyOr st₅.stage ("Inquiry") = "Inquiry" := by rw [hstage₅]; simp [pyOr]
    simp only [choose_and_update_stage, hpy]
    rw [choose_stage_from_inquiry hc₅ hi₅ tr₅ ps₅ l₅, if_neg htgt₅]
    exact ⟨rfl, rfl⟩

theorem c10_unrecognized_stage_witness :
    (("Qualified" ∉ stageNames ∧ "Qualified" ≠ "") ∧
     ({ sampleStory with stage := some ("Qualified") } : Story).stage = some ("Qualified") ∧
     ({ sampleStory with stage := none } : Story).stage = none ∧
     ({ sampleStory with stage := some ("") } : Story).stage = some ("") ∧
     targetStage true false false true ≠ "Inquiry") ∧
    (choose_stage (some ("Qualified")) true false ([] : List (Option String)) false false = targetStage true false false false ∧
     ((choose_and_update_stage sampleWorld 3 { sampleStory with stage := some ("Qualified") } true false [] false false ("inbound_message") none none ("communication_created")).2.stage =
         some (targetStage true false false false) ∧
      (choose_and_update_stage sampleWorld 3 { sampleStory with stage := some ("Qualified") } true false [] false false ("inbound_message") none none ("communication_created")).1.events =
         sampleWorld.events ++ [{ contact := ({ sampleStory with stage := some ("Qualified") } : Story).contact,
                                  event_type := "communication_created", source_doctype := none, source_ref := none,
                                  diff := jsonDumps (PyVal.pydict [("stage", PyVal.pydict
                                    [("from", PyVal.pystr ("Qualified")), ("to", PyVal.pystr (targetStage true false false false))])]),
                                  actor := "system", created_at := 3 }]) ∧
     choose_stage (none : Option String) true true ([] : List (Option String)) false false = choose_stage (some ("Inquiry")) true true ([] : List (Option String)) false false ∧
     choose_stage (some ("")) true true ([] : List (Option String)) false false = choose_stage (some ("Inquiry")) true true ([] : List (Option String)) false false ∧
     ((choose_and_update_stage sampleWorld 4 { sampleStory with stage := none } true false [] false true ("inbound_message") none none ("communication_created")).2.stage =
         some (targetStage true false false true) ∧
      (choose_and_update_stage sampleWorld 4 { sampleStory with stage := none } true false [] false true ("inbound_message") none none ("communication_created")).1.events =
         sampleWorld.events ++ [{ contact := ({ sampleStory with stage := none } : Story).contact,
                                  event_type := "communication_created", source_doctype := none, source_ref := none,
                                  diff := jsonDumps (PyVal.pydict [("stage", PyVal.pydict
                                    [("from", PyVal.pystr ("Inquiry")), ("to", PyVal.pystr (targetStage true false false true))])]),
                                  actor := "system", created_at := 4 }]) ∧
     ((choose_and_update_stage sampleWorld 5 { sampleStory with stage := some ("") } true false [] false true ("inbound_message") none none ("communication_created")).2.stage =
         some (targetStage true false false true) ∧
      (choose_and_update_stage sampleWorld 5 { sampleStory with stage := some ("") } true false [] false true ("inbound_message") none none ("communication_created")).1.events =
         sampleWorld.events ++ [{ contact := ({ sampleStory with stage := some ("") } : Story).contact,
                                  event_type := "communication_created", source_doctype := none, source_ref := none,
                                  diff := jsonDumps (PyVal.pydict [("stage", PyVal.pydict
                                    [("from", PyVal.pystr ("Inquiry")), ("to", PyVal.pystr (targetStage true false false true))])]),
                                  actor := "system", created_at := 5 }])) :=
  ⟨⟨⟨by decide, by decide⟩, rfl, rfl, rfl, by decide⟩,
    c10_unrecognized_stage "Qualified" (by decide) (by decide) true false false false []
      sampleWorld 3 { sampleStory with stage := some ("Qualified") } "Qualified" rfl (by decide) (by decide)
      true false [] false false ("inbound_message") none none ("communication_created")
      true true false false []
      sampleWorld 4 { sampleStory with stage := none } rfl
      true false [] false true ("inbound_message") none none ("communication_created") (by decide)
      sampleWorld 5 { sampleStory with stage := some ("") } rfl
      true false [] false true ("inbound_message") none none ("communication_created") (by decide)⟩

theorem stageRank_of_ne (t : String) (h : t ≠ "") : stageRank (some t) = stageOrderGet t 0 := by
  simp [stageRank, pyOr, h]

theorem casStep_stageOk (ws : World × Story) (i : StageInput) (h : stageOk ws.2) :
    stageOk (casStep ws i).2 ∧ stageRank ws.2.stage ≤ stageRank (casStep ws i).2.stage := by
  obtain ⟨s, hs, hstage⟩ := h
  have hne : s ≠ "" := stageNames_ne_empty s hs
  have hpy : pyOr ws.2.stage ("Inquiry") = s := by rw [hstage]; simp [pyOr, hne]
  have hmono : choose_stage (some s) i.has_contact i.has_itinerary i.itinerary_statuses i.trip_ready i.proposal_sent_flag ∈ stageNames ∧
      stageOrderGet s 0 ≤ stageOrderGet (choose_stage (some s) i.has_contact i.has_itinerary i.itinerary_statuses i.trip_ready i.proposal_sent_flag) 0 :=
    choose_stage_rank_mono s hs i.proposal_sent_flag i.has_itinerary i.trip_ready i.has_contact
  have hrank : stageRank ws.2.stage = stageOrderGet s 0 := by
    rw [hstage, stageRank_of_ne s hne]
  simp only [casStep, choose_and_update_stage, hpy]
  by_cases hif : choose_stage (some s) i.has_contact i.has_itinerary i.itinerary_statuses i.trip_ready i.proposal_sent_flag = s
  · rw [if_pos hif]
    exact ⟨⟨s, hs, hstage⟩, le_refl _⟩
  · rw [if_neg hif]
    have hnew := hmono.1
    have hnewne : choose_stage (some s) i.has_contact i.has_itinerary i.itinerary_statuses i.trip_ready i.proposal_sent_flag ≠ "" :=
      stageNames_ne_empty _ hnew
    constructor
    · exact ⟨_, hnew, rfl⟩
    · rw [hrank]
      show stageOrderGet s 0 ≤ stageRank (some (choose_stage (some s) i.has_contact i.has_itinerary i.itinerary_statuses i.trip_ready i.proposal_sent_flag))
      rw [stageRank_of_ne _ hnewne]
      exact hmono.2

theorem casRun_head (ws : World × Story) (l : List StageInput) :
    (casRun ws l).head? = some ws := by
  cases l <;> rfl

theorem casRun_chain (inputs : List StageInput) (ws : World × Story) (h : stageOk ws.2) :
    List.Chain' (fun a b => stageRank a.2.stage ≤ stageRank b.2.stage) (casRun ws inputs) := by
  induction inputs generalizing ws with
  | nil => simp [casRun]
  | cons i rest ih =>
    have hstep := casStep_stageOk ws i h
    rw [casRun, List.chain'_cons']
    constructor
    · intro y hy
      rw [casRun_head] at hy
      have hy2 : y = casStep ws i := by
        cases hy
        rfl
      rw [hy2]
      exact hstep.2
    · exact ih (casStep ws i) hstep.1

/-- Claim C1: for every current stage among the seven names and every
boolean input combination, the rank of `choose_stage` never drops below the
current stage's rank; consequently along any sequence of
`choose_and_update_stage` calls on a Story holding one of the seven names,
the stage rank is non-decreasing. -/
theorem c1_forward_only
    (s : String) (hs : s ∈ stageNames) (hc hi tr ps : Bool) (l : List (Option String))
    (ws : World × Story) (hws : stageOk ws.2) (inputs : List StageInput) :
    stageOrderGet s 0 ≤ stageOrderGet (choose_stage (some s) hc hi l tr ps) 0 ∧
    List.Chain' (fun a b => stageRank a.2.stage ≤ stageRank b.2.stage) (casRun ws inputs) :=
  ⟨(choose_stage_rank_mono s hs ps hi tr hc).2, casRun_chain inputs ws hws⟩

theorem c1_forward_only_witness :
    ("Proposal" ∈ stageNames ∧ stageOk ((sampleWorld, sampleStory) : World × Story).2) ∧
    (stageOrderGet ("Proposal") 0 ≤
       stageOrderGet (choose_stage (some ("Proposal")) true false ([] : List (Option String)) false false) 0 ∧
     List.Chain' (fun (a b : World × Story) => stageRank a.2.stage ≤ stageRank b.2.stage)
       (casRun (sampleWorld, sampleStory) [inputA, inputB])) :=
  ⟨⟨by decide, ⟨"Inquiry", by decide, by decide⟩⟩,
    c1_forward_only "Proposal" (by decide) true false false false [] (sampleWorld, sampleStory)
      ⟨"Inquiry", by decide, by decide⟩ [inputA, inputB]⟩

theorem extract_fallthrough (c : Comm)
    (h : (truthyS c.reference_doctype && (lowerStr (c.reference_doctype.getD "") == "itinerary")) = false ∨
         asTruthy c.reference_name = none) :
    extract_itinerary_ref_from_comm c = extractSteps23 c := by
  unfold extract_itinerary_ref_from_comm
  by_cases hcond : (truthyS c.reference_doctype && (lowerStr (c.reference_doctype.getD "") == "itinerary")) = true
  · rcases h with h | h
    · rw [h] at hcond
      simp at hcond
    · rw [if_pos hcond, h]
  · rw [if_neg hcond]

/-- Claim C7: `extract_itinerary_ref_from_comm` is a pure function applying
first-match resolution: a truthy case-insensitive Itinerary reference with
a truthy name wins as `reference_link`; else the first matching timeline
link wins as `timeline_link`; else the content blob then the subject blob
is scanned for an app path (`content_path`) and then a PCK code
(`code_pattern`); else the result is `(None, None)`.  On a record matching
both the reference-doctype rule and a code pattern, `reference_link`
wins. -/
theorem c7_extractor_priority
    (c₁ : Comm) (n₁ : String)
    (h₁a : truthyS c₁.reference_doctype = true)
    (h₁b : lowerStr (c₁.reference_doctype.getD "") = "itinerary")
    (h₁c : asTruthy c₁.reference_name = some n₁)
    (c₂ : Comm) (n₂ : String)
    (h₂a : (truthyS c₂.reference_doctype && (lowerStr (c₂.reference_doctype.getD "") == "itinerary")) = false ∨
           asTruthy c₂.reference_name = none)
    (h₂b : firstItinLink c₂.timeline_links = some n₂)
    (c₃ : Comm) (t₃ m₃ : String)
    (h₃a : (truthyS c₃.reference_doctype && (lowerStr (c₃.reference_doctype.getD "") == "itinerary")) = false ∨
           asTruthy c₃.reference_name = none)
    (h₃b : firstItinLink c₃.timeline_links = none)
    (h₃c : scanBlobs (commBlobs c₃) = some (t₃, m₃))
    (c₄ : Comm)
    (h₄a : (truthyS c₄.reference_doctype && (lowerStr (c₄.reference_doctype.getD "") == "itinerary")) = false ∨
           asTruthy c₄.reference_name = none)
    (h₄b : firstItinLink c₄.timeline_links = none)
    (h₄c : scanBlobs (commBlobs c₄) = none)
    (b₅ : String) (t₅ : String) (h₅ : scanAppItin b₅.data = some t₅)
    (b₆ : String) (t₆ : String) (h₆a : scanAppItin b₆.data = none) (h₆b : scanPck false b₆.data = some t₆)
    (c₇ : Comm) (ct₇ st₇ : String)
    (h₇a : asTruthy c₇.content = some ct₇) (h₇b : asTruthy c₇.subject = some st₇) :
    extract_itinerary_ref_from_comm c₁ = (some n₁, some ("reference_link")) ∧
    extract_itinerary_ref_from_comm c₂ = (some n₂, some ("timeline_link")) ∧
    extract_itinerary_ref_from_comm c₃ = (some t₃, some m₃) ∧
    extract_itinerary_ref_from_comm c₄ = (none, none) ∧
    scanBlob b₅ = some (t₅, ("content_path")) ∧
    scanBlob b₆ = some (t₆, ("code_pattern")) ∧
    commBlobs c₇ = [ct₇, st₇] ∧
    extract_itinerary_ref_from_comm dualComm = (some ("ITIN-9"), some ("reference_link")) := by
  refine ⟨?_, ?_, ?_, ?_, ?_, ?_, ?_, rfl⟩
  · simp [extract_itinerary_ref_from_comm, h₁a, h₁b, h₁c]
  · rw [extract_fallthrough c₂ h₂a]
    simp [extractSteps23, h₂b]
  · rw [extract_fallthrough c₃ h₃a]
    simp [extractSteps23, h₃b, h₃c]
  · rw [extract_fallthrough c₄ h₄a]
    simp [extractSteps23, h₄b, h₄c]
  · simp [scanBlob, h₅]
  · simp [scanBlob, h₆a, h₆b]
  · simp [commBlobs, h₇a, h₇b]

theorem c7_extractor_priority_witness :
    (truthyS dualComm.reference_doctype = true ∧
     lowerStr (dualComm.reference_doctype.getD "") = "itinerary" ∧
     asTruthy dualComm.reference_name = some ("ITIN-9") ∧
     ((truthyS tlComm.reference_doctype && (lowerStr (tlComm.reference_doctype.getD "") == "itinerary")) = false ∨
        asTruthy tlComm.reference_name = none) ∧
     firstItinLink tlComm.timeline_links = some ("ITL-1") ∧
     ((truthyS blobComm.reference_doctype && (lowerStr (blobComm.reference_doctype.getD "") == "itinerary")) = false ∨
        asTruthy blobComm.reference_name = none) ∧
     firstItinLink blobComm.timeline_links = none ∧
     scanBlobs (commBlobs blobComm) = some (("pck-1111-2222"), ("code_pattern")) ∧
     ((truthyS emptyComm.reference_doctype && (lowerStr (emptyComm.reference_doctype.getD "") == "itinerary")) = false ∨
        asTruthy emptyComm.reference_name = none) ∧
     firstItinLink emptyComm.timeline_links = none ∧
     scanBlobs (commBlobs emptyComm) = none ∧
     scanAppItin ("go /app/itinerary/AB-1".data) = some ("AB-1") ∧
     scanAppItin ("no path".data) = none ∧
     scanPck false ("no path PCK-0001-0002".data) = some ("PCK-0001-0002") ∧
     asTruthy blobComm.content = some ("code pck-1111-2222 inside") ∧
     asTruthy blobComm.subject = some ("/app/itinerary/SUBJ-1")) ∧
    (extract_itinerary_ref_from_comm dualComm = (some ("ITIN-9"), some ("reference_link")) ∧
     extract_itinerary_ref_from_comm tlComm = (some ("ITL-1"), some ("timeline_link")) ∧
     extract_itinerary_ref_from_comm blobComm = (some ("pck-1111-2222"), some ("code_pattern")) ∧
     extract_itinerary_ref_from_comm emptyComm = (none, none) ∧
     scanBlob ("go /app/itinerary/AB-1") = some (("AB-1"), ("content_path")) ∧
     scanBlob ("no path PCK-0001-0002") = some (("PCK-0001-0002"), ("code_pattern")) ∧
     commBlobs blobComm = [("code pck-1111-2222 inside"), ("/app/itinerary/SUBJ-1")] ∧
     extract_itinerary_ref_from_comm dualComm = (some ("ITIN-9"), some ("reference_link"))) :=
  ⟨⟨rfl, rfl, rfl, Or.inl rfl, rfl, Or.inl rfl, rfl, rfl, Or.inr rfl, rfl, rfl, rfl, rfl, rfl, rfl, rfl⟩,
    c7_extractor_priority dualComm ("ITIN-9") rfl rfl rfl
      tlComm ("ITL-1") (Or.inl rfl) rfl
      blobComm ("pck-1111-2222") ("code_pattern") (Or.inl rfl) rfl rfl
      emptyComm (Or.inr rfl) rfl rfl
      ("go /app/itinerary/AB-1") ("AB-1") rfl
      ("no path PCK-0001-0002") ("PCK-0001-0002") rfl rfl
      blobComm ("code pck-1111-2222 inside") ("/app/itinerary/SUBJ-1") rfl rfl⟩

/-- Claim C8: when the required linkage is missing, each entry point
returns without creating a Story, without mutating any state, and without
raising: a Trip with no customer, an Itinerary with no linked Trip, an
Itinerary whose Trip has no customer, and a Communication with no
resolvable contact. -/
theorem c8_missing_linkage
    (w₁ : World) (now₁ today₁ : Nat) (t₁ : Trip) (h₁ : asTruthy t₁.customer = none)
    (w₂ : World) (now₂ today₂ : Nat) (i₂ : ItineraryDoc) (h₂ : asTruthy i₂.trip = none)
    (w₃ : World) (now₃ today₃ : Nat) (i₃ : ItineraryDoc) (tn₃ : String) (t₃ : Trip)
    (h₃a : asTruthy i₃.trip = some tn₃) (h₃b : getTrip w₃.trips tn₃ = some t₃)
    (h₃c : asTruthy t₃.customer = none)
    (resolver₄ : String → Option String) (w₄ : World) (now₄ : Nat) (comm₄ : Comm)
    (h₄ : resolve_contact resolver₄ comm₄ = none) :
    update_from_business w₁ now₁ today₁ (BizDoc.trip t₁) = some w₁ ∧
    update_from_business w₂ now₂ today₂ (BizDoc.itin i₂) = some w₂ ∧
    update_from_business w₃ now₃ today₃ (BizDoc.itin i₃) = some w₃ ∧
    update_from_comm resolver₄ w₄ now₄ comm₄ = some w₄ := by
  refine ⟨?_, ?_, ?_, ?_⟩
  · simp [update_from_business, h₁]
  · simp [update_from_business, h₂]
  · simp [update_from_business, h₃a, h₃b, h₃c]
  · simp [update_from_comm, h₄]

theorem c8_missing_linkage_witness :
    (asTruthy noCustTrip.customer = none ∧
     asTruthy orphanItin.trip = none ∧
     asTruthy linkedItin.trip = some ("T0") ∧
     getTrip tripWorld.trips ("T0") = some noCustTrip ∧
     asTruthy noCustTrip.customer = none ∧
     resolve_contact noResolver strayComm = none) ∧
    (update_from_business tripWorld 1 1 (BizDoc.trip noCustTrip) = some tripWorld ∧
     update_from_business tripWorld 2 2 (BizDoc.itin orphanItin) = some tripWorld ∧
     update_from_business tripWorld 3 3 (BizDoc.itin linkedItin) = some tripWorld ∧
     update_from_comm noResolver sampleWorld 4 strayComm = some sampleWorld) :=
  ⟨⟨rfl, rfl, rfl, rfl, rfl, rfl⟩,
    c8_missing_linkage tripWorld 1 1 noCustTrip rfl
      tripWorld 2 2 orphanItin rfl
      tripWorld 3 3 linkedItin ("T0") noCustTrip rfl rfl rfl
      noResolver sampleWorld 4 strayComm rfl⟩

/-- Claim C9: replaying a Sent Communication is idempotent: when the
resolved contact's Story already has a truthy `proposal.sent_at` fact (per
`story_facts_to_dict`), `update_from_comm` does not invoke
`mark_proposal_sent` and leaves the store unchanged (no fact write, no
Story Event), even though an itinerary reference is extractable. -/
theorem c9_sent_replay_idempotent
    (resolver : String → Option String) (w : World) (now : Nat) (comm : Comm)
    (contact : String) (story : Story) (iname : String)
    (h1 : resolve_contact resolver comm = some contact)
    (h2 : findStory w.stories contact = some story)
    (h3 : comm.sent_or_received = "Sent")
    (h4 : asTruthy (extract_itinerary_ref_from_comm comm).1 = some iname)
    (h5 : proposal_sent (story_facts_to_dict story) = true) :
    update_from_comm resolver w now comm = some w := by
  simp [update_from_comm, h1, ensure_story, h2, h3, h4, h5]

theorem c9_sent_replay_idempotent_witness :
    (resolve_contact noResolver sentComm = some ("C9") ∧
     findStory sentWorld.stories ("C9") = some sentStory ∧
     sentComm.sent_or_received = "Sent" ∧
     asTruthy (extract_itinerary_ref_from_comm sentComm).1 = some ("ITIN-7") ∧
     proposal_sent (story_facts_to_dict sentStory) = true) ∧
    update_from_comm noResolver sentWorld 20 sentComm = some sentWorld :=
  ⟨⟨rfl, rfl, rfl, rfl, rfl⟩,
    c9_sent_replay_idempotent noResolver sentWorld 20 sentComm ("C9") sentStory ("ITIN-7")
      rfl rfl rfl rfl rfl⟩

theorem factKeys_cons (r : FactRow) (rest : List FactRow) :
    factKeys (r :: rest) = r.key :: factKeys rest := rfl

theorem factKeys_upsert_mem (now : Nat) (facts : List FactRow) (k : String) (v : PyVal)
    (sd sn : Option String) (p : String) (hk : k ∈ factKeys facts) :
    factKeys (upsert_fact_rows now facts k v sd sn p) = factKeys facts := by
  induction facts with
  | nil => simp [factKeys] at hk
  | cons r rest ih =>
    by_cases hr : r.key = k
    · simp [upsert_fact_rows, hr, factKeys]
    · have hk2 : k ∈ factKeys rest := by
        rw [factKeys_cons] at hk
        rcases List.mem_cons.mp hk with h | h
        · exact absurd h.symm hr
        · exact h
      simp [upsert_fact_rows, hr, factKeys_cons, ih hk2]

theorem factKeys_upsert_not_mem (now : Nat) (facts : List FactRow) (k : String) (v : PyVal)
    (sd sn : Option String) (p : String) (hk : k ∉ factKeys facts) :
    factKeys (upsert_fact_rows now facts k v sd sn p) = factKeys facts ++ [k] := by
  induction facts with
  | nil => simp [upsert_fact_rows, factKeys]
  | cons r rest ih =>
    have hr : r.key ≠ k := by
      intro he
      exact hk (by rw [factKeys_cons, he]; exact List.mem_cons_self k _)
    have hk2 : k ∉ factKeys rest := by
      intro h
      exact hk (by rw [factKeys_cons]; exact List.mem_cons_of_mem _ h)
    simp [upsert_fact_rows, hr, factKeys_cons, ih hk2]

theorem factKeys_upsert_nodup (now : Nat) (facts : List FactRow) (k : String) (v : PyVal)
    (sd sn : Option String) (p : String) (h : (factKeys facts).Nodup) :
    (factKeys (upsert_fact_rows now facts k v sd sn p)).Nodup := by
  by_cases hk : k ∈ factKeys facts
  · rw [factKeys_upsert_mem now facts k v sd sn p hk]
    exact h
  · rw [factKeys_upsert_not_mem now facts k v sd sn p hk]
    simp [List.nodup_append, h, hk]

theorem applyCalls_nodup (calls : List UpsertCall) (init : List FactRow)
    (h : (factKeys init).Nodup) :
    (factKeys (applyCalls init calls)).Nodup := by
  induction calls generalizing init with
  | nil => exact h
  | cons c rest ih =>
    exact ih (upsert_fact_rows c.now init c.key c.value c.source_doctype c.source_name c.precedence)
      (factKeys_upsert_nodup c.now init c.key c.value c.source_doctype c.source_name c.precedence h)

theorem findRow_upsert_self (now : Nat) (facts : List FactRow) (k : String) (v : PyVal)
    (sd sn : Option String) (p : String) :
    (findRow (upsert_fact_rows now facts k v sd sn p) k).map (fun r => r.value) =
      some (some (_serialize_value v)) := by
  induction facts with
  | nil => simp [upsert_fact_rows, findRow]
  | cons r rest ih =>
    by_cases hr : r.key = k
    · simp [upsert_fact_rows, hr, findRow]
    · simp [upsert_fact_rows, hr, findRow, ih]

theorem findRow_upsert_other (now : Nat) (facts : List FactRow) (k k' : String) (v : PyVal)
    (sd sn : Option String) (p : String) (hkk : k' ≠ k) :
    findRow (upsert_fact_rows now facts k v sd sn p) k' = findRow facts k' := by
  induction facts with
  | nil => simp [upsert_fact_rows, findRow, Ne.symm hkk]
  | cons r rest ih =>
    by_cases hr : r.key = k
    · by_cases hr' : r.key = k'
      · exact absurd (hr'.symm.trans hr) hkk
      · simp [upsert_fact_rows, hr, findRow, hr', Ne.symm hkk]
    · by_cases hr' : r.key = k'
      · simp [upsert_fact_rows, hr, findRow, hr', hkk]
      · simp [upsert_fact_rows, hr, findRow, hr', ih]

theorem lastVal_shift (k : String) (calls : List UpsertCall) (acc : Option PyVal) :
    calls.foldl (fun a c => if c.key = k then some c.value else a) acc =
      match lastValFor calls k with
      | some v => some v
      | none => acc := by
  induction calls generalizing acc with
  | nil => rfl
  | cons c rest ih =>
    show List.foldl (fun a c2 => if c2.key = k then some c2.value else a)
        (if c.key = k then some c.value else acc) rest = _
    rw [ih]
    have h2 : lastValFor (c :: rest) k =
        match lastValFor rest k with
        | some v => some v
        | none => if c.key = k then some c.value else none := by
      show List.foldl (fun a c2 => if c2.key = k then some c2.value else a)
          (if c.key = k then some c.value else none) rest = _
      rw [ih]
    rw [h2]
    cases hlv : lastValFor rest k with
    | some v => rfl
    | none => by_cases hc : c.key = k <;> simp [hc]

theorem lastValFor_cons (c : UpsertCall) (rest : List UpsertCall) (k : String) :
    lastValFor (c :: rest) k =
      match lastValFor rest k with
      | some v => some v
      | none => if c.key = k then some c.value else none := by
  show List.foldl (fun a c2 => if c2.key = k then some c2.value else a)
      (if c.key = k then some c.value else none) rest = _
  rw [lastVal_shift]

theorem findRow_applyCalls (calls : List UpsertCall) (init : List FactRow) (k : String) :
    (findRow (applyCalls init calls) k).map (fun r => r.value) =
      match lastValFor calls k with
      | some v => some (some (_serialize_value v))
      | none => (findRow init k).map (fun r => r.value) := by
  induction calls generalizing init with
  | nil => rfl
  | cons c rest ih =>
    show (findRow (applyCalls (upsert_fact_rows c.now init c.key c.value c.source_doctype c.source_name c.precedence) rest) k).map (fun r => r.value) = _
    rw [ih, lastValFor_cons]
    cases hlv : lastValFor rest k with
    | some v => rfl
    | none =>
      by_cases hc : c.key = k
      · subst hc
        simp [findRow_upsert_self]
      · rw [if_neg hc,
          findRow_upsert_other c.now init c.key k c.value c.source_doctype c.source_name c.precedence (Ne.symm hc)]

theorem lastValFor_isSome (calls : List UpsertCall) (k : String)
    (hk : k ∈ calls.map (fun c => c.key)) :
    ∃ v, lastValFor calls k = some v := by
  induction calls with
  | nil => simp at hk
  | cons c rest ih =>
    rw [lastValFor_cons]
    cases hlv : lastValFor rest k with
    | some v => exact ⟨v, rfl⟩
    | none =>
      simp only [List.map_cons, List.mem_cons] at hk
      rcases hk with hk | hk
      · exact ⟨c.value, by rw [if_pos hk.symm]⟩
      · obtain ⟨v, hv⟩ := ih hk
        rw [hv] at hlv
        cases hlv

/-- Claim C5: after any sequence of `upsert_fact` calls on a fact
collection with at most one row per key, the collection still has at most
one row per key; the row for a written key holds the serialized value of
the most recent call for that key (dicts and lists JSON-encoded, `None` as
the empty string, anything else stringified); and an upsert of an existing
key replaces its row in place, leaving the key sequence unchanged. -/
theorem c5_fact_upsert_uniqueness
    (init : List FactRow) (hnd : (factKeys init).Nodup)
    (calls : List UpsertCall) (k : String) (hk : k ∈ calls.map (fun c => c.key))
    (now' : Nat) (k' : String) (v' : PyVal) (sd' sn' : Option String) (p' : String)
    (hk' : k' ∈ factKeys init)
    (kvs : List (String × PyVal)) (xs : List PyVal) (s : String) (n : Int) :
    (factKeys (applyCalls init calls)).Nodup ∧
    (∃ v, lastValFor calls k = some v ∧
       (findRow (applyCalls init calls) k).map (fun r => r.value) = some (some (_serialize_value v))) ∧
    factKeys (upsert_fact_rows now' init k' v' sd' sn' p') = factKeys init ∧
    _serialize_value (PyVal.pydict kvs) = jsonDumps (PyVal.pydict kvs) ∧
    _serialize_value (PyVal.pylist xs) = jsonDumps (PyVal.pylist xs) ∧
    _serialize_value (PyVal.pynone) = "" ∧
    _serialize_value (PyVal.pystr s) = s ∧
    _serialize_value (PyVal.pyint n) = toString n := by
  obtain ⟨v, hv⟩ := lastValFor_isSome calls k hk
  refine ⟨applyCalls_nodup calls init hnd, ⟨v, hv, ?_⟩,
    factKeys_upsert_mem now' init k' v' sd' sn' p' hk', rfl, rfl, rfl, rfl, rfl⟩
  rw [findRow_applyCalls, hv]

theorem c5_fact_upsert_uniqueness_witness :
    ((factKeys [rowA]).Nodup ∧ "a" ∈ callsC5.map (fun c => c.key) ∧ "a" ∈ factKeys [rowA]) ∧
    ((factKeys (applyCalls [rowA] callsC5)).Nodup ∧
     (∃ v, lastValFor callsC5 ("a") = some v ∧
        (findRow (applyCalls [rowA] callsC5) ("a")).map (fun r => r.value) =
          some (some (_serialize_value v))) ∧
     factKeys (upsert_fact_rows 9 [rowA] ("a") (PyVal.pystr ("z")) none none ("business_object")) =
       factKeys [rowA] ∧
     _serialize_value (PyVal.pydict [("q", PyVal.pyint 2)]) = jsonDumps (PyVal.pydict [("q", PyVal.pyint 2)]) ∧
     _serialize_value (PyVal.pylist [PyVal.pynone]) = jsonDumps (PyVal.pylist [PyVal.pynone]) ∧
     _serialize_value (PyVal.pynone) = "" ∧
     _serialize_value (PyVal.pystr ("str")) = "str" ∧
     _serialize_value (PyVal.pyint (-4)) = toString (-4 : Int)) :=
  ⟨⟨by decide, by decide, by decide⟩,
    c5_fact_upsert_uniqueness [rowA] (by decide) callsC5 ("a") (by decide)
      9 ("a") (PyVal.pystr ("z")) none none ("business_object") (by decide)
      [("q", PyVal.pyint 2)] [PyVal.pynone] ("str") (-4)⟩

theorem insertSorted_mem {α : Type} (p : α → α → Bool) (a b : α) (l : List α) :
    b ∈ insertSorted p a l ↔ b = a ∨ b ∈ l := by
  induction l with
  | nil => simp [insertSorted]
  | cons c cs ih =>
    by_cases hc : p c a = true
    · simp only [insertSorted, hc, if_true, List.mem_cons, ih]
      tauto
    · simp only [insertSorted, hc, if_false, Bool.false_eq_true, List.mem_cons]

theorem sortStable_mem {α : Type} (p : α → α → Bool) (b : α) (l : List α) :
    b ∈ sortStable p l ↔ b ∈ l := by
  induction l with
  | nil => simp [sortStable]
  | cons c cs ih => simp [sortStable, insertSorted_mem, ih]

theorem insertSorted_all_prec {α : Type} (p : α → α → Bool) (a : α) (l : List α)
    (h : ∀ b ∈ l, p b a = true) :
    insertSorted p a l = l ++ [a] := by
  induction l with
  | nil => rfl
  | cons c cs ih =>
    have hc : p c a = true := h c (List.mem_cons_self c cs)
    simp [insertSorted, hc, ih (fun b hb => h b (List.mem_cons_of_mem c hb))]

theorem insertSorted_push_past {α : Type} (p : α → α → Bool) (a m : α) (l : List α)
    (h : p m a = false) :
    insertSorted p a (l ++ [m]) = insertSorted p a l ++ [m] := by
  induction l with
  | nil => simp [insertSorted, h]
  | cons c cs ih =>
    by_cases hc : p c a = true
    · simp [insertSorted, hc, ih]
    · simp [insertSorted, hc]

theorem sortStable_split_max {α : Type} (p : α → α → Bool) (m : α) (pre post : List α)
    (h : ∀ r ∈ pre ++ post, p r m = true ∧ p m r = false) :
    sortStable p (pre ++ m :: post) = sortStable p (pre ++ post) ++ [m] := by
  induction pre with
  | nil =>
    show insertSorted p m (sortStable p post) = sortStable p post ++ [m]
    apply insertSorted_all_prec
    intro b hb
    exact (h b (by simpa using (sortStable_mem p b post).mp hb)).1
  | cons a pre ih =>
    show insertSorted p a (sortStable p (pre ++ m :: post)) =
      insertSorted p a (sortStable p (pre ++ post)) ++ [m]
    rw [ih (fun r hr => h r (List.mem_cons_of_mem a hr))]
    exact insertSorted_push_past p a m _ (h a (List.mem_cons_self a _)).2

theorem dictSet_dictSet (d : List (String × PyVal)) (p : String) (v v' : PyVal) :
    dictSet (dictSet d p v) p v' = dictSet d p v' := by
  induction d with
  | nil => simp [dictSet]
  | cons kv rest ih =>
    by_cases hk : kv.1 = p
    · simp [dictSet, hk]
    · simp [dictSet, hk, ih]

theorem dictGet_dictSet_self (d : List (String × PyVal)) (p : String) (x : PyVal) :
    dictGet (dictSet d p x) p = some x := by
  induction d with
  | nil => simp [dictSet, dictGet]
  | cons kv rest ih =>
    by_cases hk : kv.1 = p
    · simp [dictSet, hk, dictGet]
    · simp [dictSet, hk, dictGet, ih]

theorem setPath_overwrite (parts : List String) (d : List (String × PyVal)) (v v' : PyVal) :
    setPath (setPath d parts v) parts v' = setPath d parts v' := by
  induction parts generalizing d with
  | nil => rfl
  | cons q rest ih =>
    cases rest with
    | nil => exact dictSet_dictSet d q v v'
    | cons q2 rest2 =>
      simp only [setPath, dictGet_dictSet_self, dictSet_dictSet]
      rw [ih]

theorem foldl_same_key_absorb (k : String) (mrow : FactRow) (hm : mrow.key = k) (hk : k ≠ "")
    (l : List FactRow) (hall : ∀ r ∈ l, r.key = k) :
    ∀ d, buildStep (l.foldl buildStep d) mrow = buildStep d mrow := by
  induction l with
  | nil => intro d; rfl
  | cons r rest ih =>
    intro d
    have hr : r.key = k := hall r (List.mem_cons_self r rest)
    have ih2 := ih (fun r2 h2 => hall r2 (List.mem_cons_of_mem r h2)) (buildStep d r)
    show buildStep (rest.foldl buildStep (buildStep d r)) mrow = buildStep d mrow
    rw [ih2]
    simp only [buildStep, hr, hm, if_neg hk]
    exact setPath_overwrite (keyParts k) d (decodeValue r.value) (decodeValue mrow.value)

/-- Claim C6: `story_facts_to_dict` processes rows in ascending timestamp
order (`last_seen_at` with modification/creation fallbacks), so that for a
given dotted key the chronologically latest row's value wins; a string
value whose stripped form opens a JSON object or array is parsed with a
non-raising fallback to the raw string; dotted keys are split into nested
dicts; and a collision between a leaf and a deeper path under one prefix
is resolved by outright overwrite, with no deep merge. -/
theorem c6_facts_flattening
    (story : Story) (k : String) (m : FactRow) (pre post : List FactRow)
    (hfacts : story.facts = pre ++ m :: post)
    (hmk : m.key = k) (hk : k ≠ "")
    (hall : ∀ r ∈ pre ++ post, r.key = k ∧ factSortKey r < factSortKey m) :
    story_facts_to_dict story = setPath [] (keyParts k) (decodeValue m.value) ∧
    decodeValue (some ("\x7b\"a\": 1\x7d")) = PyVal.pydict [("a", PyVal.pyint 1)] ∧
    decodeValue (some ("\x7boops")) = PyVal.pystr ("\x7boops") ∧
    decodeValue (some ("[1, 2]")) = PyVal.pylist [PyVal.pyint 1, PyVal.pyint 2] ∧
    decodeValue (some ("plain")) = PyVal.pystr ("plain") ∧
    story_facts_to_dict c6leafLater = [("a", PyVal.pystr ("leaf"))] ∧
    story_facts_to_dict c6deepLater = [("a", PyVal.pydict [("b", PyVal.pystr ("deep"))])] := by
  refine ⟨?_, rfl, rfl, rfl, rfl, rfl, rfl⟩
  unfold story_facts_to_dict
  rw [hfacts, sortStable_split_max factPrec m pre post ?hprec, List.foldl_append]
  case hprec =>
    intro r hr
    obtain ⟨_, hlt⟩ := hall r hr
    constructor
    · simp [factPrec, hlt]
    · simp only [factPrec, decide_eq_false_iff_not]
      omega
  show buildStep ((sortStable factPrec (pre ++ post)).foldl buildStep []) m = _
  rw [foldl_same_key_absorb k m hmk hk (sortStable factPrec (pre ++ post))
    (fun r hr => (hall r ((sortStable_mem factPrec r (pre ++ post)).mp hr)).1) []]
  simp [buildStep, hmk, hk]

theorem c6_facts_flattening_witness :
    (c6story.facts = [c6rowK ("p.q") 1 ("one")] ++ c6rowK ("p.q") 5 ("two") :: [c6rowK ("p.q") 3 ("three")] ∧
     (c6rowK ("p.q") 5 ("two")).key = "p.q" ∧
     ("p.q" : String) ≠ "" ∧
     (∀ r ∈ [c6rowK ("p.q") 1 ("one")] ++ [c6rowK ("p.q") 3 ("three")],
        r.key = "p.q" ∧ factSortKey r < factSortKey (c6rowK ("p.q") 5 ("two")))) ∧
    (story_facts_to_dict c6story =
       setPath [] (keyParts ("p.q")) (decodeValue (c6rowK ("p.q") 5 ("two")).value) ∧
     decodeValue (some ("\x7b\"a\": 1\x7d")) = PyVal.pydict [("a", PyVal.pyint 1)] ∧
     decodeValue (some ("\x7boops")) = PyVal.pystr ("\x7boops") ∧
     decodeValue (some ("[1, 2]")) = PyVal.pylist [PyVal.pyint 1, PyVal.pyint 2] ∧
     decodeValue (some ("plain")) = PyVal.pystr ("plain") ∧
     story_facts_to_dict c6leafLater = [("a", PyVal.pystr ("leaf"))] ∧
     story_facts_to_dict c6deepLater = [("a", PyVal.pydict [("b", PyVal.pystr ("deep"))])]) :=
  ⟨⟨rfl, rfl, by decide, by decide⟩,
    c6_facts_flattening c6story ("p.q") (c6rowK ("p.q") 5 ("two"))
      [c6rowK ("p.q") 1 ("one")] [c6rowK ("p.q") 3 ("three")] rfl rfl (by decide) (by decide)⟩
